import Mathlib

/-!
Verification of the column-mapping core of the Cust2Ecount repository
(`app.py`): the difflib-based similarity matcher `fuzzy_match_columns`,
the mapping resolution loop in `main`, the defensive JSON extraction in
`get_ai_column_mapping`, and the pandas reshaper `create_mapped_dataframe`.

Conventions of the embedding:
* Python strings are Lean `String`s; `str.lower()` is modelled by the
  interpreter's own Unicode case tables (the simple mappings, the
  one-to-many U+0130, and the context-sensitive final sigma), extracted
  from the CPython build the program runs under.
* difflib's `SequenceMatcher.ratio()` is modelled by the documented
  algorithm: recursively take the longest matching block (earliest
  position on ties) and sum the matched lengths; the score is the exact
  rational `2*M / (len a + len b)` (CPython computes the same quantity in
  floating point; the `autojunk` heuristic, which only affects strings of
  200+ characters, is not modelled — the spec explicitly admits any
  common-subsequence ratio in the stated bounds as conformant, and column
  headers of that length do not occur).
* `json.loads` is modelled by the decoder the interpreter runs: strict
  string scanning with escape and surrogate-pair handling, the number
  regular expression with exact rational values, the non-standard
  `NaN`/`Infinity` constants, Python `dict` duplicate-key semantics,
  and the whole-input "Extra data" check (see `Json` and
  `parseJsonString` for the two deliberate value-level conflations).
* pandas `DataFrame`s are `DFrame`: an ordered association list of
  columns plus an explicit row count; `NaN` is `Val.NA`.  Fallible
  pandas operations return `Option`.
-/

set_option maxRecDepth 100000
set_option maxHeartbeats 2000000

namespace Cust2Ecount

/-! ### Model of difflib.SequenceMatcher.ratio -/

/-- Length of the longest common run starting at the heads of the two
character lists (used to measure a matching block at a given position). -/
def extLen : List Char → List Char → Nat
  | c :: cs, d :: ds => if c = d then extLen cs ds + 1 else 0
  | _, _ => 0

/-- Length of the maximal matching run of `a` and `b` starting at
positions `i` and `j`. -/
def matchLenAt (a b : List Char) (i j : Nat) : Nat :=
  extLen (a.drop i) (b.drop j)

/-- All candidate matching runs `(i, j, length)`, enumerated with `i`
(outer) and `j` (inner) increasing, as difflib scans them. -/
def allRuns (a b : List Char) : List (Nat × Nat × Nat) :=
  (List.range (a.length + 1)).flatMap fun i =>
    (List.range (b.length + 1)).map fun j => (i, j, matchLenAt a b i j)

/-- Keep the candidate with the strictly larger run; on ties the earlier
candidate wins, matching difflib's earliest-`i`-then-earliest-`j` rule. -/
def betterRun (best c : Nat × Nat × Nat) : Nat × Nat × Nat :=
  if best.2.2 < c.2.2 then c else best

/-- difflib `find_longest_match` over the whole strings: the longest
matching block `(i, j, size)`, earliest in `a` then in `b` on ties. -/
def longestMatch (a b : List Char) : Nat × Nat × Nat :=
  (allRuns a b).foldl betterRun (0, 0, 0)

/-- Total size of all matching blocks (difflib `get_matching_blocks`):
recursively split around the longest match.  The fuel argument only
bounds the recursion depth; `matchCount` supplies `a.length`, which is
always sufficient (when fuel runs out `a` is empty and the count is 0). -/
def matchCountF : Nat → List Char → List Char → Nat
  | 0, _, _ => 0
  | fuel + 1, a, b =>
    let m := longestMatch a b
    if m.2.2 = 0 then 0
    else
      m.2.2 + matchCountF fuel (a.take m.1) (b.take m.2.1)
        + matchCountF fuel (a.drop (m.1 + m.2.2)) (b.drop (m.2.1 + m.2.2))

/-- Number of matching characters `M` between `a` and `b`. -/
def matchCount (a b : List Char) : Nat := matchCountF a.length a b

/-- difflib `ratio()`: `2*M / (len a + len b)` as an exact rational,
`1` when both strings are empty (difflib `_calculate_ratio`). -/
def ratio (a b : List Char) : ℚ :=
  if a.length + b.length = 0 then 1
  else mkRat (2 * matchCount a b : Nat) (a.length + b.length)

/-- The one-to-one mappings of CPython `str.lower()` (the Unicode
tables of the interpreter the program runs under, CPython 3.11), as
pairs of code points; a code point absent from the table lowers to
itself.  The single one-to-many mapping (U+0130) and the
context-sensitive capital sigma are handled in `lowerChar` and
`lowerData` below. -/
def lowerMapPairs : List (Nat × Nat) := [
  (65, 97), (66, 98), (67, 99), (68, 100), (69, 101), (70, 102),
  (71, 103), (72, 104), (73, 105), (74, 106), (75, 107), (76, 108),
  (77, 109), (78, 110), (79, 111), (80, 112), (81, 113), (82, 114),
  (83, 115), (84, 116), (85, 117), (86, 118), (87, 119), (88, 120),
  (89, 121), (90, 122), (192, 224), (193, 225), (194, 226), (195, 227),
  (196, 228), (197, 229), (198, 230), (199, 231), (200, 232), (201, 233),
  (202, 234), (203, 235), (204, 236), (205, 237), (206, 238), (207, 239),
  (208, 240), (209, 241), (210, 242), (211, 243), (212, 244), (213, 245),
  (214, 246), (216, 248), (217, 249), (218, 250), (219, 251), (220, 252),
  (221, 253), (222, 254), (256, 257), (258, 259), (260, 261), (262, 263),
  (264, 265), (266, 267), (268, 269), (270, 271), (272, 273), (274, 275),
  (276, 277), (278, 279), (280, 281), (282, 283), (284, 285), (286, 287),
  (288, 289), (290, 291), (292, 293), (294, 295), (296, 297), (298, 299),
  (300, 301), (302, 303), (306, 307), (308, 309), (310, 311), (313, 314),
  (315, 316), (317, 318), (319, 320), (321, 322), (323, 324), (325, 326),
  (327, 328), (330, 331), (332, 333), (334, 335), (336, 337), (338, 339),
  (340, 341), (342, 343), (344, 345), (346, 347), (348, 349), (350, 351),
  (352, 353), (354, 355), (356, 357), (358, 359), (360, 361), (362, 363),
  (364, 365), (366, 367), (368, 369), (370, 371), (372, 373), (374, 375),
  (376, 255), (377, 378), (379, 380), (381, 382), (385, 595), (386, 387),
  (388, 389), (390, 596), (391, 392), (393, 598), (394, 599), (395, 396),
  (398, 477), (399, 601), (400, 603), (401, 402), (403, 608), (404, 611),
  (406, 617), (407, 616), (408, 409), (412, 623), (413, 626), (415, 629),
  (416, 417), (418, 419), (420, 421), (422, 640), (423, 424), (425, 643),
  (428, 429), (430, 648), (431, 432), (433, 650), (434, 651), (435, 436),
  (437, 438), (439, 658), (440, 441), (444, 445), (452, 454), (453, 454),
  (455, 457), (456, 457), (458, 460), (459, 460), (461, 462), (463, 464),
  (465, 466), (467, 468), (469, 470), (471, 472), (473, 474), (475, 476),
  (478, 479), (480, 481), (482, 483), (484, 485), (486, 487), (488, 489),
  (490, 491), (492, 493), (494, 495), (497, 499), (498, 499), (500, 501),
  (502, 405), (503, 447), (504, 505), (506, 507), (508, 509), (510, 511),
  (512, 513), (514, 515), (516, 517), (518, 519), (520, 521), (522, 523),
  (524, 525), (526, 527), (528, 529), (530, 531), (532, 533), (534, 535),
  (536, 537), (538, 539), (540, 541), (542, 543), (544, 414), (546, 547),
  (548, 549), (550, 551), (552, 553), (554, 555), (556, 557), (558, 559),
  (560, 561), (562, 563), (570, 11365), (571, 572), (573, 410), (574, 11366),
  (577, 578), (579, 384), (580, 649), (581, 652), (582, 583), (584, 585),
  (586, 587), (588, 589), (590, 591), (880, 881), (882, 883), (886, 887),
  (895, 1011), (902, 940), (904, 941), (905, 942), (906, 943), (908, 972),
  (910, 973), (911, 974), (913, 945), (914, 946), (915, 947), (916, 948),
  (917, 949), (918, 950), (919, 951), (920, 952), (921, 953), (922, 954),
  (923, 955), (924, 956), (925, 957), (926, 958), (927, 959), (928, 960),
  (929, 961), (931, 963), (932, 964), (933, 965), (934, 966), (935, 967),
  (936, 968), (937, 969), (938, 970), (939, 971), (975, 983), (984, 985),
  (986, 987), (988, 989), (990, 991), (992, 993), (994, 995), (996, 997),
  (998, 999), (1000, 1001), (1002, 1003), (1004, 1005), (1006, 1007), (1012, 952),
  (1015, 1016), (1017, 1010), (1018, 1019), (1021, 891), (1022, 892), (1023, 893),
  (1024, 1104), (1025, 1105), (1026, 1106), (1027, 1107), (1028, 1108), (1029, 1109),
  (1030, 1110), (1031, 1111), (1032, 1112), (1033, 1113), (1034, 1114), (1035, 1115),
  (1036, 1116), (1037, 1117), (1038, 1118), (1039, 1119), (1040, 1072), (1041, 1073),
  (1042, 1074), (1043, 1075), (1044, 1076), (1045, 1077), (1046, 1078), (1047, 1079),
  (1048, 1080), (1049, 1081), (1050, 1082), (1051, 1083), (1052, 1084), (1053, 1085),
  (1054, 1086), (1055, 1087), (1056, 1088), (1057, 1089), (1058, 1090), (1059, 1091),
  (1060, 1092), (1061, 1093), (1062, 1094), (1063, 1095), (1064, 1096), (1065, 1097),
  (1066, 1098), (1067, 1099), (1068, 1100), (1069, 1101), (1070, 1102), (1071, 1103),
  (1120, 1121), (1122, 1123), (1124, 1125), (1126, 1127), (1128, 1129), (1130, 1131),
  (1132, 1133), (1134, 1135), (1136, 1137), (1138, 1139), (1140, 1141), (1142, 1143),
  (1144, 1145), (1146, 1147), (1148, 1149), (1150, 1151), (1152, 1153), (1162, 1163),
  (1164, 1165), (1166, 1167), (1168, 1169), (1170, 1171), (1172, 1173), (1174, 1175),
  (1176, 1177), (1178, 1179), (1180, 1181), (1182, 1183), (1184, 1185), (1186, 1187),
  (1188, 1189), (1190, 1191), (1192, 1193), (1194, 1195), (1196, 1197), (1198, 1199),
  (1200, 1201), (1202, 1203), (1204, 1205), (1206, 1207), (1208, 1209), (1210, 1211),
  (1212, 1213), (1214, 1215), (1216, 1231), (1217, 1218), (1219, 1220), (1221, 1222),
  (1223, 1224), (1225, 1226), (1227, 1228), (1229, 1230), (1232, 1233), (1234, 1235),
  (1236, 1237), (1238, 1239), (1240, 1241), (1242, 1243), (1244, 1245), (1246, 1247),
  (1248, 1249), (1250, 1251), (1252, 1253), (1254, 1255), (1256, 1257), (1258, 1259),
  (1260, 1261), (1262, 1263), (1264, 1265), (1266, 1267), (1268, 1269), (1270, 1271),
  (1272, 1273), (1274, 1275), (1276, 1277), (1278, 1279), (1280, 1281), (1282, 1283),
  (1284, 1285), (1286, 1287), (1288, 1289), (1290, 1291), (1292, 1293), (1294, 1295),
  (1296, 1297), (1298, 1299), (1300, 1301), (1302, 1303), (1304, 1305), (1306, 1307),
  (1308, 1309), (1310, 1311), (1312, 1313), (1314, 1315), (1316, 1317), (1318, 1319),
  (1320, 1321), (1322, 1323), (1324, 1325), (1326, 1327), (1329, 1377), (1330, 1378),
  (1331, 1379), (1332, 1380), (1333, 1381), (1334, 1382), (1335, 1383), (1336, 1384),
  (1337, 1385), (1338, 1386), (1339, 1387), (1340, 1388), (1341, 1389), (1342, 1390),
  (1343, 1391), (1344, 1392), (1345, 1393), (1346, 1394), (1347, 1395), (1348, 1396),
  (1349, 1397), (1350, 1398), (1351, 1399), (1352, 1400), (1353, 1401), (1354, 1402),
  (1355, 1403), (1356, 1404), (1357, 1405), (1358, 1406), (1359, 1407), (1360, 1408),
  (1361, 1409), (1362, 1410), (1363, 1411), (1364, 1412), (1365, 1413), (1366, 1414),
  (4256, 11520), (4257, 11521), (4258, 11522), (4259, 11523), (4260, 11524), (4261, 11525),
  (4262, 11526), (4263, 11527), (4264, 11528), (4265, 11529), (4266, 11530), (4267, 11531),
  (4268, 11532), (4269, 11533), (4270, 11534), (4271, 11535), (4272, 11536), (4273, 11537),
  (4274, 11538), (4275, 11539), (4276, 11540), (4277, 11541), (4278, 11542), (4279, 11543),
  (4280, 11544), (4281, 11545), (4282, 11546), (4283, 11547), (4284, 11548), (4285, 11549),
  (4286, 11550), (4287, 11551), (4288, 11552), (4289, 11553), (4290, 11554), (4291, 11555),
  (4292, 11556), (4293, 11557), (4295, 11559), (4301, 11565), (5024, 43888), (5025, 43889),
  (5026, 43890), (5027, 43891), (5028, 43892), (5029, 43893), (5030, 43894), (5031, 43895),
  (5032, 43896), (5033, 43897), (5034, 43898), (5035, 43899), (5036, 43900), (5037, 43901),
  (5038, 43902), (5039, 43903), (5040, 43904), (5041, 43905), (5042, 43906), (5043, 43907),
  (5044, 43908), (5045, 43909), (5046, 43910), (5047, 43911), (5048, 43912), (5049, 43913),
  (5050, 43914), (5051, 43915), (5052, 43916), (5053, 43917), (5054, 43918), (5055, 43919),
  (5056, 43920), (5057, 43921), (5058, 43922), (5059, 43923), (5060, 43924), (5061, 43925),
  (5062, 43926), (5063, 43927), (5064, 43928), (5065, 43929), (5066, 43930), (5067, 43931),
  (5068, 43932), (5069, 43933), (5070, 43934), (5071, 43935), (5072, 43936), (5073, 43937),
  (5074, 43938), (5075, 43939), (5076, 43940), (5077, 43941), (5078, 43942), (5079, 43943),
  (5080, 43944), (5081, 43945), (5082, 43946), (5083, 43947), (5084, 43948), (5085, 43949),
  (5086, 43950), (5087, 43951), (5088, 43952), (5089, 43953), (5090, 43954), (5091, 43955),
  (5092, 43956), (5093, 43957), (5094, 43958), (5095, 43959), (5096, 43960), (5097, 43961),
  (5098, 43962), (5099, 43963), (5100, 43964), (5101, 43965), (5102, 43966), (5103, 43967),
  (5104, 5112), (5105, 5113), (5106, 5114), (5107, 5115), (5108, 5116), (5109, 5117),
  (7312, 4304), (7313, 4305), (7314, 4306), (7315, 4307), (7316, 4308), (7317, 4309),
  (7318, 4310), (7319, 4311), (7320, 4312), (7321, 4313), (7322, 4314), (7323, 4315),
  (7324, 4316), (7325, 4317), (7326, 4318), (7327, 4319), (7328, 4320), (7329, 4321),
  (7330, 4322), (7331, 4323), (7332, 4324), (7333, 4325), (7334, 4326), (7335, 4327),
  (7336, 4328), (7337, 4329), (7338, 4330), (7339, 4331), (7340, 4332), (7341, 4333),
  (7342, 4334), (7343, 4335), (7344, 4336), (7345, 4337), (7346, 4338), (7347, 4339),
  (7348, 4340), (7349, 4341), (7350, 4342), (7351, 4343), (7352, 4344), (7353, 4345),
  (7354, 4346), (7357, 4349), (7358, 4350), (7359, 4351), (7680, 7681), (7682, 7683),
  (7684, 7685), (7686, 7687), (7688, 7689), (7690, 7691), (7692, 7693), (7694, 7695),
  (7696, 7697), (7698, 7699), (7700, 7701), (7702, 7703), (7704, 7705), (7706, 7707),
  (7708, 7709), (7710, 7711), (7712, 7713), (7714, 7715), (7716, 7717), (7718, 7719),
  (7720, 7721), (7722, 7723), (7724, 7725), (7726, 7727), (7728, 7729), (7730, 7731),
  (7732, 7733), (7734, 7735), (7736, 7737), (7738, 7739), (7740, 7741), (7742, 7743),
  (7744, 7745), (7746, 7747), (7748, 7749), (7750, 7751), (7752, 7753), (7754, 7755),
  (7756, 7757), (7758, 7759), (7760, 7761), (7762, 7763), (7764, 7765), (7766, 7767),
  (7768, 7769), (7770, 7771), (7772, 7773), (7774, 7775), (7776, 7777), (7778, 7779),
  (7780, 7781), (7782, 7783), (7784, 7785), (7786, 7787), (7788, 7789), (7790, 7791),
  (7792, 7793), (7794, 7795), (7796, 7797), (7798, 7799), (7800, 7801), (7802, 7803),
  (7804, 7805), (7806, 7807), (7808, 7809), (7810, 7811), (7812, 7813), (7814, 7815),
  (7816, 7817), (7818, 7819), (7820, 7821), (7822, 7823), (7824, 7825), (7826, 7827),
  (7828, 7829), (7838, 223), (7840, 7841), (7842, 7843), (7844, 7845), (7846, 7847),
  (7848, 7849), (7850, 7851), (7852, 7853), (7854, 7855), (7856, 7857), (7858, 7859),
  (7860, 7861), (7862, 7863), (7864, 7865), (7866, 7867), (7868, 7869), (7870, 7871),
  (7872, 7873), (7874, 7875), (7876, 7877), (7878, 7879), (7880, 7881), (7882, 7883),
  (7884, 7885), (7886, 7887), (7888, 7889), (7890, 7891), (7892, 7893), (7894, 7895),
  (7896, 7897), (7898, 7899), (7900, 7901), (7902, 7903), (7904, 7905), (7906, 7907),
  (7908, 7909), (7910, 7911), (7912, 7913), (7914, 7915), (7916, 7917), (7918, 7919),
  (7920, 7921), (7922, 7923), (7924, 7925), (7926, 7927), (7928, 7929), (7930, 7931),
  (7932, 7933), (7934, 7935), (7944, 7936), (7945, 7937), (7946, 7938), (7947, 7939),
  (7948, 7940), (7949, 7941), (7950, 7942), (7951, 7943), (7960, 7952), (7961, 7953),
  (7962, 7954), (7963, 7955), (7964, 7956), (7965, 7957), (7976, 7968), (7977, 7969),
  (7978, 7970), (7979, 7971), (7980, 7972), (7981, 7973), (7982, 7974), (7983, 7975),
  (7992, 7984), (7993, 7985), (7994, 7986), (7995, 7987), (7996, 7988), (7997, 7989),
  (7998, 7990), (7999, 7991), (8008, 8000), (8009, 8001), (8010, 8002), (8011, 8003),
  (8012, 8004), (8013, 8005), (8025, 8017), (8027, 8019), (8029, 8021), (8031, 8023),
  (8040, 8032), (8041, 8033), (8042, 8034), (8043, 8035), (8044, 8036), (8045, 8037),
  (8046, 8038), (8047, 8039), (8072, 8064), (8073, 8065), (8074, 8066), (8075, 8067),
  (8076, 8068), (8077, 8069), (8078, 8070), (8079, 8071), (8088, 8080), (8089, 8081),
  (8090, 8082), (8091, 8083), (8092, 8084), (8093, 8085), (8094, 8086), (8095, 8087),
  (8104, 8096), (8105, 8097), (8106, 8098), (8107, 8099), (8108, 8100), (8109, 8101),
  (8110, 8102), (8111, 8103), (8120, 8112), (8121, 8113), (8122, 8048), (8123, 8049),
  (8124, 8115), (8136, 8050), (8137, 8051), (8138, 8052), (8139, 8053), (8140, 8131),
  (8152, 8144), (8153, 8145), (8154, 8054), (8155, 8055), (8168, 8160), (8169, 8161),
  (8170, 8058), (8171, 8059), (8172, 8165), (8184, 8056), (8185, 8057), (8186, 8060),
  (8187, 8061), (8188, 8179), (8486, 969), (8490, 107), (8491, 229), (8498, 8526),
  (8544, 8560), (8545, 8561), (8546, 8562), (8547, 8563), (8548, 8564), (8549, 8565),
  (8550, 8566), (8551, 8567), (8552, 8568), (8553, 8569), (8554, 8570), (8555, 8571),
  (8556, 8572), (8557, 8573), (8558, 8574), (8559, 8575), (8579, 8580), (9398, 9424),
  (9399, 9425), (9400, 9426), (9401, 9427), (9402, 9428), (9403, 9429), (9404, 9430),
  (9405, 9431), (9406, 9432), (9407, 9433), (9408, 9434), (9409, 9435), (9410, 9436),
  (9411, 9437), (9412, 9438), (9413, 9439), (9414, 9440), (9415, 9441), (9416, 9442),
  (9417, 9443), (9418, 9444), (9419, 9445), (9420, 9446), (9421, 9447), (9422, 9448),
  (9423, 9449), (11264, 11312), (11265, 11313), (11266, 11314), (11267, 11315), (11268, 11316),
  (11269, 11317), (11270, 11318), (11271, 11319), (11272, 11320), (11273, 11321), (11274, 11322),
  (11275, 11323), (11276, 11324), (11277, 11325), (11278, 11326), (11279, 11327), (11280, 11328),
  (11281, 11329), (11282, 11330), (11283, 11331), (11284, 11332), (11285, 11333), (11286, 11334),
  (11287, 11335), (11288, 11336), (11289, 11337), (11290, 11338), (11291, 11339), (11292, 11340),
  (11293, 11341), (11294, 11342), (11295, 11343), (11296, 11344), (11297, 11345), (11298, 11346),
  (11299, 11347), (11300, 11348), (11301, 11349), (11302, 11350), (11303, 11351), (11304, 11352),
  (11305, 11353), (11306, 11354), (11307, 11355), (11308, 11356), (11309, 11357), (11310, 11358),
  (11311, 11359), (11360, 11361), (11362, 619), (11363, 7549), (11364, 637), (11367, 11368),
  (11369, 11370), (11371, 11372), (11373, 593), (11374, 625), (11375, 592), (11376, 594),
  (11378, 11379), (11381, 11382), (11390, 575), (11391, 576), (11392, 11393), (11394, 11395),
  (11396, 11397), (11398, 11399), (11400, 11401), (11402, 11403), (11404, 11405), (11406, 11407),
  (11408, 11409), (11410, 11411), (11412, 11413), (11414, 11415), (11416, 11417), (11418, 11419),
  (11420, 11421), (11422, 11423), (11424, 11425), (11426, 11427), (11428, 11429), (11430, 11431),
  (11432, 11433), (11434, 11435), (11436, 11437), (11438, 11439), (11440, 11441), (11442, 11443),
  (11444, 11445), (11446, 11447), (11448, 11449), (11450, 11451), (11452, 11453), (11454, 11455),
  (11456, 11457), (11458, 11459), (11460, 11461), (11462, 11463), (11464, 11465), (11466, 11467),
  (11468, 11469), (11470, 11471), (11472, 11473), (11474, 11475), (11476, 11477), (11478, 11479),
  (11480, 11481), (11482, 11483), (11484, 11485), (11486, 11487), (11488, 11489), (11490, 11491),
  (11499, 11500), (11501, 11502), (11506, 11507), (42560, 42561), (42562, 42563), (42564, 42565),
  (42566, 42567), (42568, 42569), (42570, 42571), (42572, 42573), (42574, 42575), (42576, 42577),
  (42578, 42579), (42580, 42581), (42582, 42583), (42584, 42585), (42586, 42587), (42588, 42589),
  (42590, 42591), (42592, 42593), (42594, 42595), (42596, 42597), (42598, 42599), (42600, 42601),
  (42602, 42603), (42604, 42605), (42624, 42625), (42626, 42627), (42628, 42629), (42630, 42631),
  (42632, 42633), (42634, 42635), (42636, 42637), (42638, 42639), (42640, 42641), (42642, 42643),
  (42644, 42645), (42646, 42647), (42648, 42649), (42650, 42651), (42786, 42787), (42788, 42789),
  (42790, 42791), (42792, 42793), (42794, 42795), (42796, 42797), (42798, 42799), (42802, 42803),
  (42804, 42805), (42806, 42807), (42808, 42809), (42810, 42811), (42812, 42813), (42814, 42815),
  (42816, 42817), (42818, 42819), (42820, 42821), (42822, 42823), (42824, 42825), (42826, 42827),
  (42828, 42829), (42830, 42831), (42832, 42833), (42834, 42835), (42836, 42837), (42838, 42839),
  (42840, 42841), (42842, 42843), (42844, 42845), (42846, 42847), (42848, 42849), (42850, 42851),
  (42852, 42853), (42854, 42855), (42856, 42857), (42858, 42859), (42860, 42861), (42862, 42863),
  (42873, 42874), (42875, 42876), (42877, 7545), (42878, 42879), (42880, 42881), (42882, 42883),
  (42884, 42885), (42886, 42887), (42891, 42892), (42893, 613), (42896, 42897), (42898, 42899),
  (42902, 42903), (42904, 42905), (42906, 42907), (42908, 42909), (42910, 42911), (42912, 42913),
  (42914, 42915), (42916, 42917), (42918, 42919), (42920, 42921), (42922, 614), (42923, 604),
  (42924, 609), (42925, 620), (42926, 618), (42928, 670), (42929, 647), (42930, 669),
  (42931, 43859), (42932, 42933), (42934, 42935), (42936, 42937), (42938, 42939), (42940, 42941),
  (42942, 42943), (42944, 42945), (42946, 42947), (42948, 42900), (42949, 642), (42950, 7566),
  (42951, 42952), (42953, 42954), (42960, 42961), (42966, 42967), (42968, 42969), (42997, 42998),
  (65313, 65345), (65314, 65346), (65315, 65347), (65316, 65348), (65317, 65349), (65318, 65350),
  (65319, 65351), (65320, 65352), (65321, 65353), (65322, 65354), (65323, 65355), (65324, 65356),
  (65325, 65357), (65326, 65358), (65327, 65359), (65328, 65360), (65329, 65361), (65330, 65362),
  (65331, 65363), (65332, 65364), (65333, 65365), (65334, 65366), (65335, 65367), (65336, 65368),
  (65337, 65369), (65338, 65370), (66560, 66600), (66561, 66601), (66562, 66602), (66563, 66603),
  (66564, 66604), (66565, 66605), (66566, 66606), (66567, 66607), (66568, 66608), (66569, 66609),
  (66570, 66610), (66571, 66611), (66572, 66612), (66573, 66613), (66574, 66614), (66575, 66615),
  (66576, 66616), (66577, 66617), (66578, 66618), (66579, 66619), (66580, 66620), (66581, 66621),
  (66582, 66622), (66583, 66623), (66584, 66624), (66585, 66625), (66586, 66626), (66587, 66627),
  (66588, 66628), (66589, 66629), (66590, 66630), (66591, 66631), (66592, 66632), (66593, 66633),
  (66594, 66634), (66595, 66635), (66596, 66636), (66597, 66637), (66598, 66638), (66599, 66639),
  (66736, 66776), (66737, 66777), (66738, 66778), (66739, 66779), (66740, 66780), (66741, 66781),
  (66742, 66782), (66743, 66783), (66744, 66784), (66745, 66785), (66746, 66786), (66747, 66787),
  (66748, 66788), (66749, 66789), (66750, 66790), (66751, 66791), (66752, 66792), (66753, 66793),
  (66754, 66794), (66755, 66795), (66756, 66796), (66757, 66797), (66758, 66798), (66759, 66799),
  (66760, 66800), (66761, 66801), (66762, 66802), (66763, 66803), (66764, 66804), (66765, 66805),
  (66766, 66806), (66767, 66807), (66768, 66808), (66769, 66809), (66770, 66810), (66771, 66811),
  (66928, 66967), (66929, 66968), (66930, 66969), (66931, 66970), (66932, 66971), (66933, 66972),
  (66934, 66973), (66935, 66974), (66936, 66975), (66937, 66976), (66938, 66977), (66940, 66979),
  (66941, 66980), (66942, 66981), (66943, 66982), (66944, 66983), (66945, 66984), (66946, 66985),
  (66947, 66986), (66948, 66987), (66949, 66988), (66950, 66989), (66951, 66990), (66952, 66991),
  (66953, 66992), (66954, 66993), (66956, 66995), (66957, 66996), (66958, 66997), (66959, 66998),
  (66960, 66999), (66961, 67000), (66962, 67001), (66964, 67003), (66965, 67004), (68736, 68800),
  (68737, 68801), (68738, 68802), (68739, 68803), (68740, 68804), (68741, 68805), (68742, 68806),
  (68743, 68807), (68744, 68808), (68745, 68809), (68746, 68810), (68747, 68811), (68748, 68812),
  (68749, 68813), (68750, 68814), (68751, 68815), (68752, 68816), (68753, 68817), (68754, 68818),
  (68755, 68819), (68756, 68820), (68757, 68821), (68758, 68822), (68759, 68823), (68760, 68824),
  (68761, 68825), (68762, 68826), (68763, 68827), (68764, 68828), (68765, 68829), (68766, 68830),
  (68767, 68831), (68768, 68832), (68769, 68833), (68770, 68834), (68771, 68835), (68772, 68836),
  (68773, 68837), (68774, 68838), (68775, 68839), (68776, 68840), (68777, 68841), (68778, 68842),
  (68779, 68843), (68780, 68844), (68781, 68845), (68782, 68846), (68783, 68847), (68784, 68848),
  (68785, 68849), (68786, 68850), (71840, 71872), (71841, 71873), (71842, 71874), (71843, 71875),
  (71844, 71876), (71845, 71877), (71846, 71878), (71847, 71879), (71848, 71880), (71849, 71881),
  (71850, 71882), (71851, 71883), (71852, 71884), (71853, 71885), (71854, 71886), (71855, 71887),
  (71856, 71888), (71857, 71889), (71858, 71890), (71859, 71891), (71860, 71892), (71861, 71893),
  (71862, 71894), (71863, 71895), (71864, 71896), (71865, 71897), (71866, 71898), (71867, 71899),
  (71868, 71900), (71869, 71901), (71870, 71902), (71871, 71903), (93760, 93792), (93761, 93793),
  (93762, 93794), (93763, 93795), (93764, 93796), (93765, 93797), (93766, 93798), (93767, 93799),
  (93768, 93800), (93769, 93801), (93770, 93802), (93771, 93803), (93772, 93804), (93773, 93805),
  (93774, 93806), (93775, 93807), (93776, 93808), (93777, 93809), (93778, 93810), (93779, 93811),
  (93780, 93812), (93781, 93813), (93782, 93814), (93783, 93815), (93784, 93816), (93785, 93817),
  (93786, 93818), (93787, 93819), (93788, 93820), (93789, 93821), (93790, 93822), (93791, 93823),
  (125184, 125218), (125185, 125219), (125186, 125220), (125187, 125221), (125188, 125222), (125189, 125223),
  (125190, 125224), (125191, 125225), (125192, 125226), (125193, 125227), (125194, 125228), (125195, 125229),
  (125196, 125230), (125197, 125231), (125198, 125232), (125199, 125233), (125200, 125234), (125201, 125235),
  (125202, 125236), (125203, 125237), (125204, 125238), (125205, 125239), (125206, 125240), (125207, 125241),
  (125208, 125242), (125209, 125243), (125210, 125244), (125211, 125245), (125212, 125246), (125213, 125247),
  (125214, 125248), (125215, 125249), (125216, 125250), (125217, 125251)]

/-- Inclusive code-point ranges of the Case_Ignorable characters, which
CPython's final-sigma scan skips over (extracted behaviourally from the
same interpreter). -/
def caseIgnorableRanges : List (Nat × Nat) := [
  (39, 39), (46, 46), (58, 58), (94, 94), (96, 96), (168, 168),
  (173, 173), (175, 175), (180, 180), (183, 184), (688, 879), (884, 885),
  (890, 890), (900, 901), (903, 903), (1155, 1161), (1369, 1369), (1375, 1375),
  (1425, 1469), (1471, 1471), (1473, 1474), (1476, 1477), (1479, 1479), (1524, 1524),
  (1536, 1541), (1552, 1562), (1564, 1564), (1600, 1600), (1611, 1631), (1648, 1648),
  (1750, 1757), (1759, 1768), (1770, 1773), (1807, 1807), (1809, 1809), (1840, 1866),
  (1958, 1968), (2027, 2037), (2042, 2042), (2045, 2045), (2070, 2093), (2137, 2139),
  (2184, 2184), (2192, 2193), (2200, 2207), (2249, 2306), (2362, 2362), (2364, 2364),
  (2369, 2376), (2381, 2381), (2385, 2391), (2402, 2403), (2417, 2417), (2433, 2433),
  (2492, 2492), (2497, 2500), (2509, 2509), (2530, 2531), (2558, 2558), (2561, 2562),
  (2620, 2620), (2625, 2626), (2631, 2632), (2635, 2637), (2641, 2641), (2672, 2673),
  (2677, 2677), (2689, 2690), (2748, 2748), (2753, 2757), (2759, 2760), (2765, 2765),
  (2786, 2787), (2810, 2815), (2817, 2817), (2876, 2876), (2879, 2879), (2881, 2884),
  (2893, 2893), (2901, 2902), (2914, 2915), (2946, 2946), (3008, 3008), (3021, 3021),
  (3072, 3072), (3076, 3076), (3132, 3132), (3134, 3136), (3142, 3144), (3146, 3149),
  (3157, 3158), (3170, 3171), (3201, 3201), (3260, 3260), (3263, 3263), (3270, 3270),
  (3276, 3277), (3298, 3299), (3328, 3329), (3387, 3388), (3393, 3396), (3405, 3405),
  (3426, 3427), (3457, 3457), (3530, 3530), (3538, 3540), (3542, 3542), (3633, 3633),
  (3636, 3642), (3654, 3662), (3761, 3761), (3764, 3772), (3782, 3782), (3784, 3789),
  (3864, 3865), (3893, 3893), (3895, 3895), (3897, 3897), (3953, 3966), (3968, 3972),
  (3974, 3975), (3981, 3991), (3993, 4028), (4038, 4038), (4141, 4144), (4146, 4151),
  (4153, 4154), (4157, 4158), (4184, 4185), (4190, 4192), (4209, 4212), (4226, 4226),
  (4229, 4230), (4237, 4237), (4253, 4253), (4348, 4348), (4957, 4959), (5906, 5908),
  (5938, 5939), (5970, 5971), (6002, 6003), (6068, 6069), (6071, 6077), (6086, 6086),
  (6089, 6099), (6103, 6103), (6109, 6109), (6155, 6159), (6211, 6211), (6277, 6278),
  (6313, 6313), (6432, 6434), (6439, 6440), (6450, 6450), (6457, 6459), (6679, 6680),
  (6683, 6683), (6742, 6742), (6744, 6750), (6752, 6752), (6754, 6754), (6757, 6764),
  (6771, 6780), (6783, 6783), (6823, 6823), (6832, 6862), (6912, 6915), (6964, 6964),
  (6966, 6970), (6972, 6972), (6978, 6978), (7019, 7027), (7040, 7041), (7074, 7077),
  (7080, 7081), (7083, 7085), (7142, 7142), (7144, 7145), (7149, 7149), (7151, 7153),
  (7212, 7219), (7222, 7223), (7288, 7293), (7376, 7378), (7380, 7392), (7394, 7400),
  (7405, 7405), (7412, 7412), (7416, 7417), (7468, 7530), (7544, 7544), (7579, 7679),
  (8125, 8125), (8127, 8129), (8141, 8143), (8157, 8159), (8173, 8175), (8189, 8190),
  (8203, 8207), (8216, 8217), (8228, 8228), (8231, 8231), (8234, 8238), (8288, 8292),
  (8294, 8303), (8305, 8305), (8319, 8319), (8336, 8348), (8400, 8432), (11388, 11389),
  (11503, 11505), (11631, 11631), (11647, 11647), (11744, 11775), (11823, 11823), (12293, 12293),
  (12330, 12333), (12337, 12341), (12347, 12347), (12441, 12446), (12540, 12542), (40981, 40981),
  (42232, 42237), (42508, 42508), (42607, 42610), (42612, 42621), (42623, 42623), (42652, 42655),
  (42736, 42737), (42752, 42785), (42864, 42864), (42888, 42890), (42994, 42996), (43000, 43001),
  (43010, 43010), (43014, 43014), (43019, 43019), (43045, 43046), (43052, 43052), (43204, 43205),
  (43232, 43249), (43263, 43263), (43302, 43309), (43335, 43345), (43392, 43394), (43443, 43443),
  (43446, 43449), (43452, 43453), (43471, 43471), (43493, 43494), (43561, 43566), (43569, 43570),
  (43573, 43574), (43587, 43587), (43596, 43596), (43632, 43632), (43644, 43644), (43696, 43696),
  (43698, 43700), (43703, 43704), (43710, 43711), (43713, 43713), (43741, 43741), (43756, 43757),
  (43763, 43764), (43766, 43766), (43867, 43871), (43881, 43883), (44005, 44005), (44008, 44008),
  (44013, 44013), (64286, 64286), (64434, 64450), (65024, 65039), (65043, 65043), (65056, 65071),
  (65106, 65106), (65109, 65109), (65279, 65279), (65287, 65287), (65294, 65294), (65306, 65306),
  (65342, 65342), (65344, 65344), (65392, 65392), (65438, 65439), (65507, 65507), (65529, 65531),
  (66045, 66045), (66272, 66272), (66422, 66426), (67456, 67461), (67463, 67504), (67506, 67514),
  (68097, 68099), (68101, 68102), (68108, 68111), (68152, 68154), (68159, 68159), (68325, 68326),
  (68900, 68903), (69291, 69292), (69446, 69456), (69506, 69509), (69633, 69633), (69688, 69702),
  (69744, 69744), (69747, 69748), (69759, 69761), (69811, 69814), (69817, 69818), (69821, 69821),
  (69826, 69826), (69837, 69837), (69888, 69890), (69927, 69931), (69933, 69940), (70003, 70003),
  (70016, 70017), (70070, 70078), (70089, 70092), (70095, 70095), (70191, 70193), (70196, 70196),
  (70198, 70199), (70206, 70206), (70367, 70367), (70371, 70378), (70400, 70401), (70459, 70460),
  (70464, 70464), (70502, 70508), (70512, 70516), (70712, 70719), (70722, 70724), (70726, 70726),
  (70750, 70750), (70835, 70840), (70842, 70842), (70847, 70848), (70850, 70851), (71090, 71093),
  (71100, 71101), (71103, 71104), (71132, 71133), (71219, 71226), (71229, 71229), (71231, 71232),
  (71339, 71339), (71341, 71341), (71344, 71349), (71351, 71351), (71453, 71455), (71458, 71461),
  (71463, 71467), (71727, 71735), (71737, 71738), (71995, 71996), (71998, 71998), (72003, 72003),
  (72148, 72151), (72154, 72155), (72160, 72160), (72193, 72202), (72243, 72248), (72251, 72254),
  (72263, 72263), (72273, 72278), (72281, 72283), (72330, 72342), (72344, 72345), (72752, 72758),
  (72760, 72765), (72767, 72767), (72850, 72871), (72874, 72880), (72882, 72883), (72885, 72886),
  (73009, 73014), (73018, 73018), (73020, 73021), (73023, 73029), (73031, 73031), (73104, 73105),
  (73109, 73109), (73111, 73111), (73459, 73460), (78896, 78904), (92912, 92916), (92976, 92982),
  (92992, 92995), (94031, 94031), (94095, 94111), (94176, 94177), (94179, 94180), (110576, 110579),
  (110581, 110587), (110589, 110590), (113821, 113822), (113824, 113827), (118528, 118573), (118576, 118598),
  (119143, 119145), (119155, 119170), (119173, 119179), (119210, 119213), (119362, 119364), (121344, 121398),
  (121403, 121452), (121461, 121461), (121476, 121476), (121499, 121503), (121505, 121519), (122880, 122886),
  (122888, 122904), (122907, 122913), (122915, 122916), (122918, 122922), (123184, 123197), (123566, 123566),
  (123628, 123631), (125136, 125142), (125252, 125259), (127995, 127999), (917505, 917505), (917536, 917631),
  (917760, 917999)]

/-- Inclusive code-point ranges of the Cased characters that are not
Case_Ignorable; the final-sigma scan only ever tests casedness on such
characters, so this is the full table it needs. -/
def casedRanges : List (Nat × Nat) := [
  (65, 90), (97, 122), (170, 170), (181, 181), (186, 186), (192, 214),
  (216, 246), (248, 442), (444, 447), (452, 659), (661, 687), (880, 883),
  (886, 887), (891, 893), (895, 895), (902, 902), (904, 906), (908, 908),
  (910, 929), (931, 1013), (1015, 1153), (1162, 1327), (1329, 1366), (1376, 1416),
  (4256, 4293), (4295, 4295), (4301, 4301), (4304, 4346), (4349, 4351), (5024, 5109),
  (5112, 5117), (7296, 7304), (7312, 7354), (7357, 7359), (7424, 7467), (7531, 7543),
  (7545, 7578), (7680, 7957), (7960, 7965), (7968, 8005), (8008, 8013), (8016, 8023),
  (8025, 8025), (8027, 8027), (8029, 8029), (8031, 8061), (8064, 8116), (8118, 8124),
  (8126, 8126), (8130, 8132), (8134, 8140), (8144, 8147), (8150, 8155), (8160, 8172),
  (8178, 8180), (8182, 8188), (8450, 8450), (8455, 8455), (8458, 8467), (8469, 8469),
  (8473, 8477), (8484, 8484), (8486, 8486), (8488, 8488), (8490, 8493), (8495, 8500),
  (8505, 8505), (8508, 8511), (8517, 8521), (8526, 8526), (8544, 8575), (8579, 8580),
  (9398, 9449), (11264, 11387), (11390, 11492), (11499, 11502), (11506, 11507), (11520, 11557),
  (11559, 11559), (11565, 11565), (42560, 42605), (42624, 42651), (42786, 42863), (42865, 42887),
  (42891, 42894), (42896, 42954), (42960, 42961), (42963, 42963), (42965, 42969), (42997, 42998),
  (43002, 43002), (43824, 43866), (43872, 43880), (43888, 43967), (64256, 64262), (64275, 64279),
  (65313, 65338), (65345, 65370), (66560, 66639), (66736, 66771), (66776, 66811), (66928, 66938),
  (66940, 66954), (66956, 66962), (66964, 66965), (66967, 66977), (66979, 66993), (66995, 67001),
  (67003, 67004), (68736, 68786), (68800, 68850), (71840, 71903), (93760, 93823), (119808, 119892),
  (119894, 119964), (119966, 119967), (119970, 119970), (119973, 119974), (119977, 119980), (119982, 119993),
  (119995, 119995), (119997, 120003), (120005, 120069), (120071, 120074), (120077, 120084), (120086, 120092),
  (120094, 120121), (120123, 120126), (120128, 120132), (120134, 120134), (120138, 120144), (120146, 120485),
  (120488, 120512), (120514, 120538), (120540, 120570), (120572, 120596), (120598, 120628), (120630, 120654),
  (120656, 120686), (120688, 120712), (120714, 120744), (120746, 120770), (120772, 120779), (122624, 122633),
  (122635, 122654), (125184, 125251), (127280, 127305), (127312, 127337), (127344, 127369)]

def lookupLower (n : Nat) : Nat :=
  match lowerMapPairs.find? (fun p => p.1 = n) with
  | some p => p.2
  | none => n

def inRanges (rs : List (Nat × Nat)) (n : Nat) : Bool :=
  rs.any fun r => r.1 ≤ n ∧ n ≤ r.2

def isCaseIgnorable (c : Char) : Bool := inRanges caseIgnorableRanges c.toNat

def isCasedChar (c : Char) : Bool := inRanges casedRanges c.toNat

/-- Scan for a cased character, skipping case-ignorable ones; both
directions of CPython's final-sigma test (`handle_capital_sigma`) have
this shape. -/
def hasCasedSkippingIgnorable : List Char → Bool
  | [] => false
  | c :: rest =>
    if isCaseIgnorable c then hasCasedSkippingIgnorable rest else isCasedChar c

/-- CPython `str.lower()` of one character other than a final capital
sigma: the table mapping, plus the single one-to-many case U+0130,
which lowers to the two characters U+0069 U+0307. -/
def lowerChar (c : Char) : List Char :=
  if c.toNat = 304 then [Char.ofNat 105, Char.ofNat 775]
  else [Char.ofNat (lookupLower c.toNat)]

/-- CPython `str.lower()` over a character list; `before` is the
already-processed prefix, reversed.  A capital sigma (U+03A3) that is
preceded by a cased character and not followed by one (skipping
case-ignorable characters on both sides) lowers to the final sigma
U+03C2; every other character goes through `lowerChar`. -/
def lowerData (before : List Char) : List Char → List Char
  | [] => []
  | c :: rest =>
    (if c.toNat = 931 ∧ hasCasedSkippingIgnorable before = true ∧
        hasCasedSkippingIgnorable rest = false
      then [Char.ofNat 962]
      else lowerChar c) ++ lowerData (c :: before) rest

/-- Python `str.lower()`. -/
def lowerStr (s : String) : String := String.mk (lowerData [] s.data)

/-- The similarity score the matcher computes for one template/source
column pair (`app.py` line 63): ratio of the lower-cased names. -/
def colScore (templateCol sourceCol : String) : ℚ :=
  ratio (lowerStr templateCol).data (lowerStr sourceCol).data

/-! ### fuzzy_match_columns (app.py lines 55-72) -/

/-- Inner loop of `fuzzy_match_columns`: the candidates for one template
column that pass the threshold, in source-schema order. -/
def keptCandidates (sourceCols : List String) (templateCol : String)
    (threshold : ℚ) : List (String × ℚ) :=
  sourceCols.filterMap fun sc =>
    if threshold ≤ colScore templateCol sc then some (sc, colScore templateCol sc)
    else none

/-- One step of a stable descending insertion sort on the score: the new
element goes before the first element whose score is not larger.  Python's
`list.sort(key=..., reverse=True)` is stable in exactly this sense, and a
stable descending sort of a list is unique, so this function reproduces
the source's sorted output. -/
def insertDesc (p : String × ℚ) : List (String × ℚ) → List (String × ℚ)
  | [] => [p]
  | q :: qs => if q.2 ≤ p.2 then p :: q :: qs else q :: insertDesc p qs

/-- Stable sort, descending by score (`matches.sort(key=lambda x: x[1],
reverse=True)`). -/
def sortDesc (l : List (String × ℚ)) : List (String × ℚ) :=
  l.foldr insertDesc []

/-- `fuzzy_match_columns`: per template column (insertion order = template
order, as a Python dict preserves it), the kept candidates sorted
descending by score, truncated to the top 3; template columns with no
qualifying candidate are omitted. -/
def fuzzy_match_columns (templateCols sourceCols : List String)
    (threshold : ℚ) : List (String × List (String × ℚ)) :=
  templateCols.filterMap fun tc =>
    let m := sortDesc (keptCandidates sourceCols tc threshold)
    if m.isEmpty then none else some (tc, m.take 3)

/-! ### Lemmas about the difflib model -/

theorem extLen_le_left : ∀ x y : List Char, extLen x y ≤ x.length := by
  intro x
  induction x with
  | nil => intro y; cases y <;> simp [extLen]
  | cons c cs ih =>
    intro y
    cases y with
    | nil => simp [extLen]
    | cons d ds =>
      simp only [extLen, List.length_cons]
      split
      · exact Nat.succ_le_succ (ih ds)
      · exact Nat.zero_le _

theorem extLen_le_right : ∀ x y : List Char, extLen x y ≤ y.length := by
  intro x
  induction x with
  | nil => intro y; cases y <;> simp [extLen]
  | cons c cs ih =>
    intro y
    cases y with
    | nil => simp [extLen]
    | cons d ds =>
      simp only [extLen, List.length_cons]
      split
      · exact Nat.succ_le_succ (ih ds)
      · exact Nat.zero_le _

theorem extLen_self : ∀ x : List Char, extLen x x = x.length := by
  intro x
  induction x with
  | nil => rfl
  | cons c cs ih => simp [extLen, ih]

theorem extLen_pos_head : ∀ x y : List Char, 1 ≤ extLen x y →
    ∃ c cs ds, x = c :: cs ∧ y = c :: ds := by
  intro x y h
  cases x with
  | nil => simp [extLen] at h
  | cons c cs =>
    cases y with
    | nil => simp [extLen] at h
    | cons d ds =>
      simp only [extLen] at h
      by_cases hcd : c = d
      · exact ⟨c, cs, ds, rfl, by rw [hcd]⟩
      · simp [hcd] at h

theorem mem_allRuns {a b : List Char} {c : Nat × Nat × Nat}
    (h : c ∈ allRuns a b) :
    ∃ i j, i ≤ a.length ∧ j ≤ b.length ∧ c = (i, j, matchLenAt a b i j) := by
  simp only [allRuns, List.mem_flatMap, List.mem_map, List.mem_range] at h
  obtain ⟨i, hi, j, hj, rfl⟩ := h
  exact ⟨i, j, Nat.lt_succ_iff.mp hi, Nat.lt_succ_iff.mp hj, rfl⟩

theorem foldl_betterRun_mem :
    ∀ (l : List (Nat × Nat × Nat)) (acc : Nat × Nat × Nat),
      l.foldl betterRun acc = acc ∨ l.foldl betterRun acc ∈ l := by
  intro l
  induction l with
  | nil => intro acc; exact Or.inl rfl
  | cons c cs ih =>
    intro acc
    rcases ih (betterRun acc c) with h | h
    · rw [List.foldl_cons, h]
      unfold betterRun
      split
      · exact Or.inr (List.mem_cons_self _ _)
      · exact Or.inl rfl
    · exact Or.inr (List.mem_cons_of_mem _ h)

theorem foldl_betterRun_ge_acc :
    ∀ (l : List (Nat × Nat × Nat)) (acc : Nat × Nat × Nat),
      acc.2.2 ≤ (l.foldl betterRun acc).2.2 := by
  intro l
  induction l with
  | nil => intro acc; exact Nat.le_refl _
  | cons c cs ih =>
    intro acc
    refine Nat.le_trans ?_ (ih (betterRun acc c))
    unfold betterRun
    split
    · exact Nat.le_of_lt (by assumption)
    · exact Nat.le_refl _

theorem foldl_betterRun_ge_mem :
    ∀ (l : List (Nat × Nat × Nat)) (acc : Nat × Nat × Nat), ∀ c ∈ l,
      c.2.2 ≤ (l.foldl betterRun acc).2.2 := by
  intro l
  induction l with
  | nil => intro acc c hc; exact absurd hc (List.not_mem_nil c)
  | cons d ds ih =>
    intro acc c hc
    rcases List.mem_cons.mp hc with rfl | hc
    · refine Nat.le_trans ?_ (foldl_betterRun_ge_acc ds (betterRun acc c))
      unfold betterRun
      split
      · exact Nat.le_refl _
      · exact Nat.le_of_not_lt (by assumption)
    · exact ih (betterRun acc d) c hc

theorem longestMatch_valid (a b : List Char) :
    (longestMatch a b).1 + (longestMatch a b).2.2 ≤ a.length ∧
      (longestMatch a b).2.1 + (longestMatch a b).2.2 ≤ b.length := by
  rcases foldl_betterRun_mem (allRuns a b) (0, 0, 0) with h | h
  · unfold longestMatch
    rw [h]
    exact ⟨Nat.zero_le _, Nat.zero_le _⟩
  · obtain ⟨i, j, hi, hj, hc⟩ := mem_allRuns h
    unfold longestMatch
    rw [hc]
    dsimp only
    constructor
    · have h1 : matchLenAt a b i j ≤ a.length - i := by
        have := extLen_le_left (a.drop i) (b.drop j)
        simpa [matchLenAt] using this
      omega
    · have h2 : matchLenAt a b i j ≤ b.length - j := by
        have := extLen_le_right (a.drop i) (b.drop j)
        simpa [matchLenAt] using this
      omega

theorem longestMatch_k_le_left (a b : List Char) :
    (longestMatch a b).2.2 ≤ a.length :=
  Nat.le_trans (Nat.le_add_left _ _) (longestMatch_valid a b).1

theorem longestMatch_k_le_right (a b : List Char) :
    (longestMatch a b).2.2 ≤ b.length :=
  Nat.le_trans (Nat.le_add_left _ _) (longestMatch_valid a b).2

theorem zero_zero_mem_allRuns (a b : List Char) :
    (0, 0, matchLenAt a b 0 0) ∈ allRuns a b := by
  simp only [allRuns, List.mem_flatMap, List.mem_map, List.mem_range]
  exact ⟨0, Nat.succ_pos _, 0, Nat.succ_pos _, rfl⟩

theorem longestMatch_self (a : List Char) :
    longestMatch a a = (0, 0, a.length) := by
  have hk : (longestMatch a a).2.2 = a.length := by
    have h1 : a.length ≤ (longestMatch a a).2.2 := by
      have := foldl_betterRun_ge_mem (allRuns a a) (0, 0, 0) _
        (zero_zero_mem_allRuns a a)
      simpa [matchLenAt, extLen_self] using this
    exact Nat.le_antisymm (longestMatch_k_le_left a a) h1
  rcases foldl_betterRun_mem (allRuns a a) (0, 0, 0) with h | h
  · have he : longestMatch a a = (0, 0, 0) := h
    rw [he] at hk
    dsimp only at hk
    have hlen : a.length = 0 := hk.symm
    rw [he, hlen]
  · obtain ⟨i, j, hi, hj, hc⟩ := mem_allRuns h
    have he : longestMatch a a = (i, j, matchLenAt a a i j) := hc
    rw [he] at hk
    dsimp only at hk
    have hi0 : i = 0 := by
      have hle := extLen_le_left (a.drop i) (a.drop j)
      simp only [matchLenAt] at hk
      rw [hk] at hle
      simp only [List.length_drop] at hle
      omega
    have hj0 : j = 0 := by
      have hle := extLen_le_right (a.drop i) (a.drop j)
      simp only [matchLenAt] at hk
      rw [hk] at hle
      simp only [List.length_drop] at hle
      omega
    subst hi0; subst hj0
    rw [he, hk]

theorem matchCountF_nil_left (f : Nat) (b : List Char) :
    matchCountF f [] b = 0 := by
  cases f with
  | zero => rfl
  | succ g =>
    have hk : (longestMatch [] b).2.2 = 0 :=
      Nat.le_antisymm (longestMatch_k_le_left [] b) (Nat.zero_le _)
    simp [matchCountF, hk]

theorem matchCountF_le_left :
    ∀ (f : Nat) (a b : List Char), matchCountF f a b ≤ a.length := by
  intro f
  induction f with
  | zero => intro a b; exact Nat.zero_le _
  | succ g ih =>
    intro a b
    simp only [matchCountF]
    split
    · exact Nat.zero_le _
    · have hv := longestMatch_valid a b
      have h1 := ih (a.take (longestMatch a b).1) (b.take (longestMatch a b).2.1)
      have h2 := ih (a.drop ((longestMatch a b).1 + (longestMatch a b).2.2))
        (b.drop ((longestMatch a b).2.1 + (longestMatch a b).2.2))
      simp only [List.length_take, List.length_drop] at h1 h2
      omega

theorem matchCountF_le_right :
    ∀ (f : Nat) (a b : List Char), matchCountF f a b ≤ b.length := by
  intro f
  induction f with
  | zero => intro a b; exact Nat.zero_le _
  | succ g ih =>
    intro a b
    simp only [matchCountF]
    split
    · exact Nat.zero_le _
    · have hv := longestMatch_valid a b
      have h1 := ih (a.take (longestMatch a b).1) (b.take (longestMatch a b).2.1)
      have h2 := ih (a.drop ((longestMatch a b).1 + (longestMatch a b).2.2))
        (b.drop ((longestMatch a b).2.1 + (longestMatch a b).2.2))
      simp only [List.length_take, List.length_drop] at h1 h2
      omega

theorem matchCount_self (a : List Char) : matchCount a a = a.length := by
  unfold matchCount
  cases ha : a.length with
  | zero =>
    have : a = [] := List.length_eq_zero.mp ha
    subst this
    rfl
  | succ n =>
    simp only [matchCountF, longestMatch_self, ha]
    have hne : ¬ (n + 1 = 0) := Nat.succ_ne_zero n
    simp only [hne, if_false]
    have hdrop : a.drop (n + 1) = [] := by
      apply List.drop_eq_nil_of_le
      omega
    simp [List.take_zero, Nat.zero_add, hdrop, matchCountF_nil_left]

theorem longestMatch_k_zero_of_disjoint {a b : List Char}
    (h : ∀ c ∈ a, c ∉ b) : (longestMatch a b).2.2 = 0 := by
  by_contra hk
  have hk1 : 1 ≤ (longestMatch a b).2.2 := Nat.one_le_iff_ne_zero.mpr hk
  rcases foldl_betterRun_mem (allRuns a b) (0, 0, 0) with he | he
  · unfold longestMatch at hk1
    rw [he] at hk1
    simp at hk1
  · obtain ⟨i, j, hi, hj, hc⟩ := mem_allRuns he
    unfold longestMatch at hk1
    rw [hc] at hk1
    simp only [matchLenAt] at hk1
    obtain ⟨c, cs, ds, hx, hy⟩ := extLen_pos_head _ _ hk1
    have hca : c ∈ a := by
      have : c ∈ a.drop i := by rw [hx]; exact List.mem_cons_self c cs
      exact List.mem_of_mem_drop this
    have hcb : c ∈ b := by
      have : c ∈ b.drop j := by rw [hy]; exact List.mem_cons_self c ds
      exact List.mem_of_mem_drop this
    exact h c hca hcb

theorem matchCount_eq_zero_of_disjoint {a b : List Char}
    (h : ∀ c ∈ a, c ∉ b) : matchCount a b = 0 := by
  unfold matchCount
  cases a.length with
  | zero => rfl
  | succ n => simp [matchCountF, longestMatch_k_zero_of_disjoint h]

theorem ratio_self (a : List Char) : ratio a a = 1 := by
  unfold ratio
  by_cases h : a.length + a.length = 0
  · simp [h]
  · rw [if_neg h, matchCount_self, Rat.mkRat_eq_div]
    rw [div_eq_one_iff_eq]
    · push_cast
      ring
    · exact_mod_cast h

theorem ratio_eq_zero_of_disjoint {a b : List Char}
    (hne : a.length + b.length ≠ 0) (h : ∀ c ∈ a, c ∉ b) : ratio a b = 0 := by
  unfold ratio
  rw [if_neg hne, matchCount_eq_zero_of_disjoint h]
  simp [Rat.mkRat_eq_div]

theorem ratio_nonneg (a b : List Char) : 0 ≤ ratio a b := by
  unfold ratio
  split
  · exact zero_le_one
  · rw [Rat.mkRat_eq_div]
    positivity

theorem ratio_le_one (a b : List Char) : ratio a b ≤ 1 := by
  unfold ratio
  split
  · exact le_refl 1
  · rw [Rat.mkRat_eq_div]
    rw [div_le_one]
    · have h1 := matchCountF_le_left a.length a b
      have h2 := matchCountF_le_right a.length a b
      unfold matchCount
      push_cast
      have : 2 * matchCountF a.length a b ≤ a.length + b.length := by omega
      exact_mod_cast this
    · have hne : a.length + b.length ≠ 0 := by assumption
      positivity

/-! ### Lemmas about the stable descending sort -/

theorem mem_insertDesc {p x : String × ℚ} :
    ∀ {l : List (String × ℚ)}, x ∈ insertDesc p l ↔ x = p ∨ x ∈ l := by
  intro l
  induction l with
  | nil => simp [insertDesc]
  | cons q qs ih =>
    simp only [insertDesc]
    split
    · simp [List.mem_cons]
    · simp only [List.mem_cons, ih]
      tauto

theorem insertDesc_pairwise {p : String × ℚ} :
    ∀ {l : List (String × ℚ)},
      l.Pairwise (fun x y => y.2 ≤ x.2) →
      (insertDesc p l).Pairwise (fun x y => y.2 ≤ x.2) := by
  intro l
  induction l with
  | nil => intro _; simp [insertDesc]
  | cons q qs ih =>
    intro hl
    rw [List.pairwise_cons] at hl
    simp only [insertDesc]
    split
    · rw [List.pairwise_cons]
      constructor
      · intro z hz
        rcases List.mem_cons.mp hz with rfl | hz
        · assumption
        · exact le_trans (hl.1 z hz) (by assumption)
      · exact List.pairwise_cons.mpr hl
    · rw [List.pairwise_cons]
      constructor
      · intro z hz
        rcases mem_insertDesc.mp hz with rfl | hz
        · exact le_of_not_le (by assumption)
        · exact hl.1 z hz
      · exact ih hl.2

theorem sortDesc_pairwise (l : List (String × ℚ)) :
    (sortDesc l).Pairwise (fun x y => y.2 ≤ x.2) := by
  induction l with
  | nil => simp [sortDesc]
  | cons q qs ih => exact insertDesc_pairwise ih

theorem mem_sortDesc {x : String × ℚ} :
    ∀ {l : List (String × ℚ)}, x ∈ sortDesc l ↔ x ∈ l := by
  intro l
  induction l with
  | nil => simp [sortDesc]
  | cons q qs ih =>
    show x ∈ insertDesc q (sortDesc qs) ↔ _
    rw [mem_insertDesc]
    simp [ih, List.mem_cons]

theorem filter_insertDesc (p : String × ℚ) (l : List (String × ℚ)) (q : ℚ) :
    (insertDesc p l).filter (fun x => x.2 = q) =
      if p.2 = q then p :: l.filter (fun x => x.2 = q)
      else l.filter (fun x => x.2 = q) := by
  induction l with
  | nil =>
    simp only [insertDesc, List.filter]
    split <;> simp_all
  | cons a as ih =>
    simp only [insertDesc]
    by_cases hap : a.2 ≤ p.2
    · rw [if_pos hap]
      by_cases hpq : p.2 = q <;> simp [List.filter_cons, hpq]
    · rw [if_neg hap]
      rw [List.filter_cons, List.filter_cons, ih]
      by_cases haq : a.2 = q
      · have hpq : ¬ p.2 = q := by
          intro h
          rw [h, ← haq] at hap
          exact hap le_rfl
        simp [haq, hpq]
      · by_cases hpq : p.2 = q <;> simp [haq, hpq]

theorem sortDesc_filter_eq (l : List (String × ℚ)) (q : ℚ) :
    (sortDesc l).filter (fun x => x.2 = q) = l.filter (fun x => x.2 = q) := by
  induction l with
  | nil => rfl
  | cons a as ih =>
    show (insertDesc a (sortDesc as)).filter _ = _
    rw [filter_insertDesc, List.filter_cons]
    by_cases haq : a.2 = q <;> simp [haq, ih]

theorem sortDesc_cons (x : String × ℚ) (l : List (String × ℚ)) :
    sortDesc (x :: l) = insertDesc x (sortDesc l) := rfl

theorem insertDesc_append_left (p : String × ℚ) (A B : List (String × ℚ))
    (hB : ∀ x ∈ B, x.2 ≤ p.2) :
    insertDesc p (A ++ B) = insertDesc p A ++ B := by
  induction A with
  | nil =>
    cases B with
    | nil => rfl
    | cons b bs =>
      simp only [List.nil_append, insertDesc]
      rw [if_pos (hB b (List.mem_cons_self b bs))]
      rfl
  | cons a as ih =>
    rw [List.cons_append]
    simp only [insertDesc]
    split
    · rfl
    · rw [ih]
      rfl

theorem insertDesc_append_right (p : String × ℚ) (A B : List (String × ℚ))
    (hA : ∀ x ∈ A, p.2 < x.2) :
    insertDesc p (A ++ B) = A ++ insertDesc p B := by
  induction A with
  | nil => rfl
  | cons a as ih =>
    rw [List.cons_append]
    simp only [insertDesc]
    have hle : ¬ a.2 ≤ p.2 := not_le.mpr (hA a (List.mem_cons_self a as))
    rw [if_neg hle, ih fun x hx => hA x (List.mem_cons_of_mem a hx)]
    rfl

theorem sortDesc_split (l : List (String × ℚ)) (t : ℚ) :
    sortDesc l = sortDesc (l.filter fun x => t ≤ x.2)
      ++ sortDesc (l.filter fun x => ¬ t ≤ x.2) := by
  induction l with
  | nil => rfl
  | cons x xs ih =>
    rw [sortDesc_cons, ih]
    by_cases hx : t ≤ x.2
    · rw [insertDesc_append_left]
      · simp [List.filter_cons, hx, sortDesc_cons]
      · intro y hy
        rw [mem_sortDesc, List.mem_filter] at hy
        have hny : ¬ t ≤ y.2 := by simpa using hy.2
        exact le_trans (le_of_not_le hny) hx
    · rw [insertDesc_append_right]
      · simp only [List.filter_cons]
        rw [if_neg (by simpa using hx), if_pos (by simpa using hx), sortDesc_cons]
      · intro y hy
        rw [mem_sortDesc, List.mem_filter] at hy
        have hty : t ≤ y.2 := by simpa using hy.2
        exact lt_of_lt_of_le (not_le.mp hx) hty

/-! ### Lemmas about keptCandidates and fuzzy_match_columns -/

theorem mem_keptCandidates {sourceCols : List String} {tc : String}
    {th : ℚ} {p : String × ℚ} (h : p ∈ keptCandidates sourceCols tc th) :
    p.1 ∈ sourceCols ∧ p.2 = colScore tc p.1 ∧ th ≤ p.2 := by
  unfold keptCandidates at h
  rw [List.mem_filterMap] at h
  obtain ⟨sc, hsc, hp⟩ := h
  by_cases hth : th ≤ colScore tc sc
  · rw [if_pos hth] at hp
    cases hp
    exact ⟨hsc, rfl, hth⟩
  · rw [if_neg hth] at hp
    cases hp

theorem keptCandidates_cons (sc : String) (rest : List String) (tc : String)
    (t : ℚ) :
    keptCandidates (sc :: rest) tc t =
      if t ≤ colScore tc sc then (sc, colScore tc sc) :: keptCandidates rest tc t
      else keptCandidates rest tc t := by
  by_cases ht : t ≤ colScore tc sc
  · unfold keptCandidates
    rw [List.filterMap_cons, if_pos ht, if_pos ht]
  · unfold keptCandidates
    rw [List.filterMap_cons, if_neg ht, if_neg ht]

theorem keptCandidates_filter {sourceCols : List String} {tc : String}
    {t1 t2 : ℚ} (h : t1 ≤ t2) :
    keptCandidates sourceCols tc t2 =
      (keptCandidates sourceCols tc t1).filter fun p => t2 ≤ p.2 := by
  induction sourceCols with
  | nil => rfl
  | cons sc rest ih =>
    rw [keptCandidates_cons, keptCandidates_cons]
    by_cases h2 : t2 ≤ colScore tc sc
    · have h1 : t1 ≤ colScore tc sc := le_trans h h2
      rw [if_pos h2, if_pos h1, List.filter_cons]
      simp [h2, ih]
    · by_cases h1 : t1 ≤ colScore tc sc
      · rw [if_neg h2, if_pos h1, List.filter_cons]
        simp [h2, ih]
      · rw [if_neg h2, if_neg h1, ih]

theorem fuzzy_mem {templateCols sourceCols : List String} {th : ℚ}
    {tc : String} {l : List (String × ℚ)}
    (h : (tc, l) ∈ fuzzy_match_columns templateCols sourceCols th) :
    tc ∈ templateCols ∧ sortDesc (keptCandidates sourceCols tc th) ≠ [] ∧
      l = (sortDesc (keptCandidates sourceCols tc th)).take 3 := by
  unfold fuzzy_match_columns at h
  rw [List.mem_filterMap] at h
  obtain ⟨a, ha, hp⟩ := h
  by_cases he : (sortDesc (keptCandidates sourceCols a th)).isEmpty
  · rw [if_pos he] at hp
    cases hp
  · rw [if_neg he] at hp
    rw [Option.some.injEq, Prod.mk.injEq] at hp
    obtain ⟨rfl, rfl⟩ := hp
    exact ⟨ha, by simpa [List.isEmpty_iff] using he, rfl⟩

theorem fuzzy_mem_intro {templateCols sourceCols : List String} {th : ℚ}
    {tc : String} (ha : tc ∈ templateCols)
    (hne : sortDesc (keptCandidates sourceCols tc th) ≠ []) :
    (tc, (sortDesc (keptCandidates sourceCols tc th)).take 3)
      ∈ fuzzy_match_columns templateCols sourceCols th := by
  unfold fuzzy_match_columns
  rw [List.mem_filterMap]
  refine ⟨tc, ha, ?_⟩
  rw [if_neg (by simpa [List.isEmpty_iff] using hne)]

/-! ### Claim theorems about the similarity matcher -/

/-- C4: for every template schema, source schema and in-range threshold,
each candidate list produced by `fuzzy_match_columns` is nonempty (template
columns with no qualifying candidate are omitted, never mapped to an empty
list), has at most 3 entries, is sorted descending by score, contains only
candidates whose score passes the threshold, and keeps tied scores in the
source schema's original column order (its restriction to any score value
is an initial segment of the source-order candidate list `keptCandidates`,
which witnesses stability of the sort). -/
theorem fuzzy_candidate_lists_spec
    (templateCols sourceCols : List String) (th : ℚ)
    (hlo : mkRat 1 2 ≤ th) (hhi : th ≤ 1) :
    (∀ tc l, (tc, l) ∈ fuzzy_match_columns templateCols sourceCols th →
      l ≠ [] ∧ l.length ≤ 3 ∧
      l.Pairwise (fun x y => y.2 ≤ x.2) ∧
      (∀ p ∈ l, th ≤ p.2) ∧
      (∀ q : ℚ, ∃ rest, (l.filter fun x => x.2 = q) ++ rest =
        (keptCandidates sourceCols tc th).filter fun x => x.2 = q)) ∧
    (∀ tc, keptCandidates sourceCols tc th = [] →
      ∀ l, (tc, l) ∉ fuzzy_match_columns templateCols sourceCols th) := by
  constructor
  · intro tc l h
    obtain ⟨htc, hne, rfl⟩ := fuzzy_mem h
    refine ⟨?_, ?_, ?_, ?_, ?_⟩
    · cases hs : sortDesc (keptCandidates sourceCols tc th) with
      | nil => exact absurd hs hne
      | cons c cs => simp [List.take_succ_cons]
    · rw [List.length_take]
      exact min_le_left 3 _
    · exact (sortDesc_pairwise _).sublist (List.take_sublist 3 _)
    · intro p hp
      have hp' : p ∈ sortDesc (keptCandidates sourceCols tc th) :=
        List.mem_of_mem_take hp
      exact (mem_keptCandidates (mem_sortDesc.mp hp')).2.2
    · intro q
      refine ⟨((sortDesc (keptCandidates sourceCols tc th)).drop 3).filter
        (fun x => x.2 = q), ?_⟩
      rw [← List.filter_append, List.take_append_drop, sortDesc_filter_eq]
  · intro tc hkept l h
    obtain ⟨_, hne, _⟩ := fuzzy_mem h
    rw [hkept] at hne
    exact hne rfl

theorem fuzzy_candidate_lists_spec_witness :
    [("name", (1:ℚ))] ≠ [] ∧ [("name", (1:ℚ))].length ≤ 3 ∧
      [("name", (1:ℚ))].Pairwise (fun x y => y.2 ≤ x.2) ∧
      (∀ p ∈ [("name", (1:ℚ))], mkRat 7 10 ≤ p.2) ∧
      (∀ q : ℚ, ∃ rest, ([("name", (1:ℚ))].filter fun x => x.2 = q) ++ rest =
        (keptCandidates ["name"] "Name" (mkRat 7 10)).filter fun x => x.2 = q) :=
  (fuzzy_candidate_lists_spec ["Name"] ["name"] (mkRat 7 10)
    (by decide) (by decide)).1 "Name" [("name", 1)] (by decide)

/-- C5: thresholding is monotone in spite of the top-3 truncation: every
candidate pair kept for a template column at threshold `t2` is also kept
for that column at any lower in-range threshold `t1`.  The newly admitted
candidates score strictly below `t2`, so the stable descending sort places
them after all previously kept candidates and the top-3 window still
starts with the old list. -/
theorem fuzzy_threshold_monotone
    (templateCols sourceCols : List String) (t1 t2 : ℚ)
    (hlo : mkRat 1 2 ≤ t1) (h12 : t1 ≤ t2) (hhi : t2 ≤ 1) :
    ∀ tc l2, (tc, l2) ∈ fuzzy_match_columns templateCols sourceCols t2 →
      ∃ l1, (tc, l1) ∈ fuzzy_match_columns templateCols sourceCols t1 ∧
        ∀ p ∈ l2, p ∈ l1 := by
  intro tc l2 h
  obtain ⟨htc, hne, rfl⟩ := fuzzy_mem h
  have hsplit : sortDesc (keptCandidates sourceCols tc t1)
      = sortDesc (keptCandidates sourceCols tc t2)
        ++ sortDesc ((keptCandidates sourceCols tc t1).filter
            fun x => ¬ t2 ≤ x.2) := by
    rw [sortDesc_split (keptCandidates sourceCols tc t1) t2,
      ← keptCandidates_filter h12]
  refine ⟨(sortDesc (keptCandidates sourceCols tc t1)).take 3,
    fuzzy_mem_intro htc ?_, ?_⟩
  · rw [hsplit]
    intro hcontra
    exact hne (List.append_eq_nil.mp hcontra).1
  · intro p hp
    rw [hsplit, List.take_append_eq_append_take]
    exact List.mem_append_left _ hp

theorem fuzzy_threshold_monotone_witness :
    ∃ l1, ("Name", l1) ∈ fuzzy_match_columns ["Name"] ["name"] (mkRat 1 2) ∧
      ∀ p ∈ [("name", (1:ℚ))], p ∈ l1 :=
  fuzzy_threshold_monotone ["Name"] ["name"] (mkRat 1 2) 1
    (by decide) (by decide) (by decide) "Name" [("name", 1)] (by decide)

/-- C7, counterexample: `fuzzy_match_columns` contains no threshold
validation whatsoever (`app.py` lines 55-72 check nothing); for the
out-of-range threshold 0.3 it runs the matching and produces an ordinary
result instead of failing with a threshold error.  The [0.5, 1.0] range
is enforced only by the UI slider (`app.py` lines 191-198), outside the
matcher. -/
theorem fuzzy_out_of_range_threshold_counterexample :
    ¬ mkRat 1 2 ≤ mkRat 3 10 ∧
    fuzzy_match_columns ["Amount"] ["amt"] (mkRat 3 10)
      = [("Amount", [("amt", mkRat 6 9)])] := by
  constructor
  · decide
  · decide

/-- C7, amended: the matcher itself performs no threshold validation and
has no failure mode at all: for every threshold, in range or not, it
produces a well-formed result (keys drawn from the template schema,
nonempty candidate lists, every kept score at or above the threshold). -/
theorem fuzzy_total_no_validation
    (templateCols sourceCols : List String) (th : ℚ) :
    ∀ e ∈ fuzzy_match_columns templateCols sourceCols th,
      e.1 ∈ templateCols ∧ e.2 ≠ [] ∧ ∀ p ∈ e.2, th ≤ p.2 := by
  intro e he
  have h : (e.1, e.2) ∈ fuzzy_match_columns templateCols sourceCols th := by
    rw [Prod.mk.eta]
    exact he
  obtain ⟨htc, hne, hl⟩ := fuzzy_mem h
  refine ⟨htc, ?_, ?_⟩
  · rw [hl]
    cases hs : sortDesc (keptCandidates sourceCols e.1 th) with
    | nil => exact absurd hs hne
    | cons c cs => simp [List.take_succ_cons]
  · intro p hp
    rw [hl] at hp
    have hp' : p ∈ sortDesc (keptCandidates sourceCols e.1 th) :=
      List.mem_of_mem_take hp
    exact (mem_keptCandidates (mem_sortDesc.mp hp')).2.2

theorem fuzzy_total_no_validation_witness :
    ("Amount", [("amt", mkRat 6 9)]).1 ∈ ["Amount"] ∧
      ("Amount", [("amt", mkRat 6 9)]).2 ≠ [] ∧
      ∀ p ∈ ("Amount", [("amt", mkRat 6 9)]).2, mkRat 3 10 ≤ p.2 :=
  fuzzy_total_no_validation ["Amount"] ["amt"] (mkRat 3 10)
    ("Amount", [("amt", mkRat 6 9)]) (by decide)

theorem lowerChar_ne_nil (c : Char) : lowerChar c ≠ [] := by
  unfold lowerChar
  split
  · simp
  · simp

theorem lowerData_cons_ne_nil (before : List Char) (c : Char)
    (rest : List Char) : lowerData before (c :: rest) ≠ [] := by
  unfold lowerData
  split
  · simp
  · intro h
    rcases List.append_eq_nil.mp h with ⟨h1, _⟩
    exact lowerChar_ne_nil c h1

example : lowerStr "Name" = "name" := by decide
example : lowerStr "ÄÖÜ" = "äöü" := by decide
example : lowerStr "Σ" = "σ" := by decide
example : lowerStr "ΑΣ" = "ας" := by decide
example : lowerStr "ΑΣΒ" = "ασβ" := by decide
example : lowerStr "İ" = String.mk [Char.ofNat 105, Char.ofNat 775] := by decide
example : colScore "Ä" "ä" = 1 := by decide

/-- C8, counterexample: the pair of empty column names shares no
characters (vacuously), yet difflib scores it 1.0, not 0.0
(`_calculate_ratio` returns 1.0 when both strings are empty), so the
"no shared characters implies score 0.0" clause fails on this pair. -/
theorem colScore_empty_pair_counterexample :
    (∀ c ∈ (lowerStr "").data, c ∉ (lowerStr "").data) ∧
      colScore "" "" = 1 ∧ (1 : ℚ) ≠ 0 := by
  refine ⟨by decide, by decide, by decide⟩

/-- C8, amended: column-name pairs identical after case folding score
exactly 1; pairs whose case-folded names share no characters score
exactly 0, provided not both names are empty (the empty/empty pair
scores 1 instead); and every score lies in [0, 1]. -/
theorem colScore_bounds_and_extremes (a b : String) :
    (lowerStr a = lowerStr b → colScore a b = 1) ∧
    ((a ≠ "" ∨ b ≠ "") →
      (∀ c ∈ (lowerStr a).data, c ∉ (lowerStr b).data) → colScore a b = 0) ∧
    0 ≤ colScore a b ∧ colScore a b ≤ 1 := by
  refine ⟨?_, ?_, ratio_nonneg _ _, ratio_le_one _ _⟩
  · intro h
    unfold colScore
    rw [h]
    exact ratio_self _
  · intro hne hdisj
    unfold colScore
    apply ratio_eq_zero_of_disjoint _ hdisj
    have hlen : ∀ s : String, s ≠ "" → (lowerStr s).data.length ≠ 0 := by
      intro s hs hzero
      rw [List.length_eq_zero] at hzero
      cases hsd : s.data with
      | nil => exact hs (String.ext hsd)
      | cons c rest =>
        have hne2 : lowerData [] s.data ≠ [] := by
          rw [hsd]
          exact lowerData_cons_ne_nil [] c rest
        exact hne2 hzero
    rcases hne with ha | hb
    · have := hlen a ha
      omega
    · have := hlen b hb
      omega

theorem colScore_bounds_and_extremes_witness :
    colScore "Name" "NAME" = 1 ∧ colScore "ab" "xy" = 0 :=
  ⟨(colScore_bounds_and_extremes "Name" "NAME").1 (by decide),
   (colScore_bounds_and_extremes "ab" "xy").2.1 (Or.inl (by decide)) (by decide)⟩

/-! ### The mapping resolver (app.py lines 290-314) -/

/-- One selectbox decision of the manual-mapping loop in `main`
(app.py lines 292-314).  The selectbox offers the option *strings*
`options = ["No mapping"] + source_columns`; its default is the option
at `options.index(suggested)` when the suggestion is truthy (non-null
and nonempty, `if suggested`) and occurs in the source schema, which is
the suggestion string itself — so a suggestion equal to the literal
sentinel string "No mapping" lands on the sentinel at index 0.
`override` is the option string the caller explicitly picked (`none` =
left the default); it may itself be the sentinel, or a source column
that happens to be *named* "No mapping", which the code cannot tell
apart from the sentinel.  The chosen string enters `final_mapping` only
when it differs from "No mapping" (`if selected != "No mapping"`).
The AI suggestion is passed as `Option String`; a non-string JSON
suggestion value is truthy but never `in source_columns`, so it behaves
exactly like `none` here. -/
def resolveColumn (sourceCols : List String) (suggestion : Option String)
    (override : Option String) : Option String :=
  let defaultChoice : String :=
    match suggestion with
    | some s => if s ≠ "" ∧ s ∈ sourceCols then s else "No mapping"
    | none => "No mapping"
  let selected : String :=
    match override with
    | some sel => sel
    | none => defaultChoice
  if selected = "No mapping" then none else some selected

/-- The resolver loop over the template schema: the effective decision
for every template column (`final_mapping`; a column resolved to `none`
is one the loop leaves out of the Python dict). -/
def resolve_mapping (templateCols sourceCols : List String)
    (ai : String → Option String)
    (override : String → Option String) :
    List (String × Option String) :=
  templateCols.map fun tc => (tc, resolveColumn sourceCols (ai tc) (override tc))

/-- C3, counterexample: two ways the resolver fails to honour a choice
that names a column present in the source schema.  First, an AI
suggestion that is the empty string while the source schema contains an
empty-named column: Python's `if suggested` treats `""` as falsy and
drops it.  Second, a source column literally named "No mapping": whether
suggested (`options.index` lands on the sentinel at index 0) or manually
selected (the selectbox returns the string "No mapping", filtered by
`selected != "No mapping"`), the code resolves it to no mapping — the
manual override does not win there either. -/
theorem resolve_empty_suggestion_counterexample :
    (resolve_mapping ["X"] [""] (fun _ => some "") (fun _ => none)
      = [("X", none)] ∧ ("" ∈ [""]) ∧ (none : Option String) ≠ some "") ∧
    (resolve_mapping ["Y"] ["No mapping"] (fun _ => some "No mapping")
      (fun _ => none) = [("Y", none)] ∧ ("No mapping" ∈ ["No mapping"])) ∧
    (resolve_mapping ["Z"] ["No mapping"] (fun _ => none)
      (fun _ => some "No mapping") = [("Z", none)]) := by
  refine ⟨⟨by decide, by decide, by decide⟩, ⟨by decide, by decide⟩, by decide⟩

/-- C3, amended: the resolved mapping chooses the caller's manual
override when one is provided, except that the selectbox conflates the
literal option string "No mapping" with the no-mapping sentinel, so an
override equal to that string (in particular a source column named
"No mapping") resolves to no mapping; otherwise the AI suggestion, but
only when it is nonempty, differs from the sentinel string, and names a
column present in the current source schema; otherwise "no mapping" —
and absent an override, a resolved column is always a nonempty,
non-sentinel name occurring in the source schema, so a stale suggestion
never propagates. -/
theorem resolve_mapping_spec (templateCols sourceCols : List String)
    (ai : String → Option String)
    (override : String → Option String) :
    ∀ tc ∈ templateCols, ∀ v,
      (tc, v) ∈ resolve_mapping templateCols sourceCols ai override →
      (∀ o, override tc = some o →
        (o = "No mapping" → v = none) ∧ (o ≠ "No mapping" → v = some o)) ∧
      (override tc = none → ∀ s, ai tc = some s → s ≠ "" →
        s ≠ "No mapping" → s ∈ sourceCols → v = some s) ∧
      (override tc = none →
        (∀ s, ai tc = some s → s = "" ∨ s ∉ sourceCols ∨ s = "No mapping") →
        v = none) ∧
      (override tc = none → ∀ s, v = some s →
        ai tc = some s ∧ s ∈ sourceCols ∧ s ≠ "" ∧ s ≠ "No mapping") := by
  intro tc htc v hv
  rw [resolve_mapping, List.mem_map] at hv
  obtain ⟨a, ha, heq⟩ := hv
  rw [Prod.mk.injEq] at heq
  obtain ⟨rfl, rfl⟩ := heq
  refine ⟨?_, ?_, ?_, ?_⟩
  · intro o ho
    constructor
    · intro hno
      simp [resolveColumn, ho, hno]
    · intro hno
      simp only [resolveColumn, ho]
      rw [if_neg hno]
  · intro hov s hs hne hnm hmem
    simp only [resolveColumn, hov, hs]
    rw [if_pos (show s ≠ "" ∧ s ∈ sourceCols from ⟨hne, hmem⟩)]
    rw [if_neg hnm]
  · intro hov hbad
    cases has : ai a with
    | none => simp [resolveColumn, hov, has]
    | some s =>
      simp only [resolveColumn, hov, has]
      by_cases hc : s ≠ "" ∧ s ∈ sourceCols
      · rw [if_pos hc]
        rcases hbad s has with h | h | h
        · exact absurd h hc.1
        · exact absurd hc.2 h
        · rw [if_pos h]
      · rw [if_neg hc, if_pos rfl]
  · intro hov s hvs
    cases has : ai a with
    | none =>
      simp only [resolveColumn, hov, has] at hvs
      cases hvs
    | some t =>
      simp only [resolveColumn, hov, has] at hvs
      by_cases hc : t ≠ "" ∧ t ∈ sourceCols
      · rw [if_pos hc] at hvs
        by_cases hnm : t = "No mapping"
        · rw [if_pos hnm] at hvs
          cases hvs
        · rw [if_neg hnm] at hvs
          have hts : t = s := Option.some.injEq _ _ ▸ hvs
          subst hts
          exact ⟨rfl, hc.2, hc.1, hnm⟩
      · rw [if_neg hc, if_pos rfl] at hvs
        cases hvs

theorem resolve_mapping_spec_witness :
    resolveColumn ["name"] (some "name") none = some "name" :=
  ((resolve_mapping_spec ["Name"] ["name"] (fun _ => some "name")
      (fun _ => none) "Name" (by decide)
      (resolveColumn ["name"] (some "name") none) (by decide)).2.1
    rfl "name" rfl (by decide) (by decide) (by decide))

/-! ### The AI suggestion adapter (app.py lines 74-141) -/

/-- The object braces, written numerically so they never appear as
literal characters in this file. -/
def braceOpen : Char := Char.ofNat 123

def braceClose : Char := Char.ofNat 125

/-- The extraction step of `get_ai_column_mapping`:
`start_idx = ai_response.find(chr(123))`, `end_idx =
ai_response.rfind(chr(125)) + 1`, slice `ai_response[start_idx:end_idx]`.
Python's `rfind` returns -1 when absent, so `end_idx` is then 0 and the
slice is empty (the code's `end_idx != -1` guard is always true at that
point); when the first brace-open is absent the code returns the empty
mapping, modelled by `none`. -/
def extractJsonStr (resp : String) : Option (List Char) :=
  match resp.data.findIdx? (· = braceOpen) with
  | none => none
  | some i =>
    let endIdx : Nat :=
      match resp.data.reverse.findIdx? (· = braceClose) with
      | some k => resp.data.length - k
      | none => 0
    some ((resp.data.take endIdx).drop i)

def isWS (c : Char) : Bool := c = ' ' || c = '\n' || c = '\t' || c = '\r'

def skipWS : List Char → List Char
  | c :: cs => if isWS c then skipWS cs else c :: cs
  | [] => []

/-- A decoded JSON value as CPython `json.loads` (with its default
hooks) produces one: `null`, booleans, numbers, strings, arrays,
objects, plus the non-standard constants `NaN`, `Infinity` and
`-Infinity` that the default `parse_constant` accepts.  A number
carries the exact rational value of its literal: the `int`/`float`
distinction and the IEEE-754 rounding/overflow of floats are not
modelled (which inputs decode is unaffected, and the adapter's callers
only ever use string values). -/
inductive Json where
  | null : Json
  | bool : Bool → Json
  | num : ℚ → Json
  | nan : Json
  | inf : Bool → Json
  | str : String → Json
  | arr : List Json → Json
  | obj : List (String × Json) → Json

/-- Value of a hexadecimal digit; `\uXXXX` escapes accept both cases. -/
def hexVal (c : Char) : Option Nat :=
  if '0' ≤ c ∧ c ≤ '9' then some (c.toNat - 48)
  else if 'a' ≤ c ∧ c ≤ 'f' then some (c.toNat - 87)
  else if 'A' ≤ c ∧ c ≤ 'F' then some (c.toNat - 55)
  else none

/-- CPython `scanstring` in strict mode, as `json.loads` uses it: the
characters of a string literal up to its closing quote, plus the rest
of the input.  Handled exactly as the interpreter does: the short
escapes for quote, backslash, slash, backspace, form feed, newline,
carriage return and tab; `\uXXXX` escapes with surrogate-pair
combination (a high surrogate followed by a low-surrogate escape forms
one code point; followed by any other `\uXXXX` escape it stands alone
and the next escape is scanned separately); any other escape, a
truncated `\uXXXX`, or an unterminated string is a decode error; an
unescaped control character below U+0020 is rejected (strict mode).
The one approximation: a *lone* surrogate escape, which Python keeps
as a surrogate code unit in the `str`, becomes `Char.ofNat` of its
code, that is U+0000, because a Lean `Char` holds only Unicode scalar
values; whether an input decodes is unaffected, and such strings never
equal a real column name either way.  The fuel only bounds recursion
depth: every step consumes at least one character, so the
`length + 1` that callers pass never runs out. -/
def parseJsonString : Nat → List Char → Option (List Char × List Char)
  | 0, _ => none
  | _, [] => none
  | fuel + 1, c :: cs =>
    if c = '"' then some ([], cs)
    else if c = '\\' then
      match cs with
      | [] => none
      | e :: cs2 =>
        let esc : Option Char :=
          if e = '"' then some '"'
          else if e = '\\' then some '\\'
          else if e = '/' then some '/'
          else if e = 'b' then some (Char.ofNat 8)
          else if e = 'f' then some (Char.ofNat 12)
          else if e = 'n' then some (Char.ofNat 10)
          else if e = 'r' then some (Char.ofNat 13)
          else if e = 't' then some (Char.ofNat 9)
          else none
        match esc with
        | some ec =>
          match parseJsonString fuel cs2 with
          | some (s, rest) => some (ec :: s, rest)
          | none => none
        | none =>
          if e = 'u' then
            match cs2 with
            | h1 :: h2 :: h3 :: h4 :: cs3 =>
              match hexVal h1, hexVal h2, hexVal h3, hexVal h4 with
              | some a, some b, some c2, some d =>
                let uni : Nat := ((a * 16 + b) * 16 + c2) * 16 + d
                if 55296 ≤ uni ∧ uni ≤ 56319 then
                  match cs3 with
                  | b1 :: b2 :: g1 :: g2 :: g3 :: g4 :: cs4 =>
                    if b1 = '\\' ∧ b2 = 'u' then
                      match hexVal g1, hexVal g2, hexVal g3, hexVal g4 with
                      | some p, some q, some r2, some s2 =>
                        let uni2 : Nat := ((p * 16 + q) * 16 + r2) * 16 + s2
                        if 56320 ≤ uni2 ∧ uni2 ≤ 57343 then
                          match parseJsonString fuel cs4 with
                          | some (s, rest) =>
                            some (Char.ofNat
                              (65536 + (uni - 55296) * 1024 + (uni2 - 56320))
                                :: s, rest)
                          | none => none
                        else
                          match parseJsonString fuel cs3 with
                          | some (s, rest) => some (Char.ofNat uni :: s, rest)
                          | none => none
                      | _, _, _, _ => none
                    else
                      match parseJsonString fuel cs3 with
                      | some (s, rest) => some (Char.ofNat uni :: s, rest)
                      | none => none
                  | _ =>
                    match parseJsonString fuel cs3 with
                    | some (s, rest) => some (Char.ofNat uni :: s, rest)
                    | none => none
                else
                  match parseJsonString fuel cs3 with
                  | some (s, rest) => some (Char.ofNat uni :: s, rest)
                  | none => none
              | _, _, _, _ => none
            | _ => none
          else none
    else if c.toNat < 32 then none
    else
      match parseJsonString fuel cs with
      | some (s, rest) => some (c :: s, rest)
      | none => none

def isDigitChar (c : Char) : Bool := '0' ≤ c ∧ c ≤ '9'

/-- Split the maximal run of decimal digits off the front. -/
def takeDigits : List Char → List Char × List Char
  | [] => ([], [])
  | c :: cs =>
    if isDigitChar c then
      let p := takeDigits cs
      (c :: p.1, p.2)
    else ([], c :: cs)

def digitsToNat (acc : Nat) : List Char → Nat
  | [] => acc
  | c :: cs => digitsToNat (acc * 10 + (c.toNat - 48)) cs

/-- CPython's JSON number scan: the regular expression
`(-?(0|[1-9][0-9]*))(\.[0-9]+)?([eE][+-]?[0-9]+)?` matched at the
current position — so `007` reads `0` leaving `07`, `1.` reads `1`
leaving `.`, and `1e` reads `1` leaving `e` — converted to the exact
rational value of the matched literal (see `Json.num` for the
deliberate `int`/`float` conflation). -/
def parseJsonNumber (cs : List Char) : Option (Json × List Char) :=
  let sign : Bool × List Char :=
    match cs with
    | c :: r => if c = '-' then (true, r) else (false, cs)
    | [] => (false, cs)
  match sign.2 with
  | [] => none
  | c :: r =>
    if isDigitChar c then
      let intPart : List Char × List Char :=
        if c = '0' then ([c], r)
        else (c :: (takeDigits r).1, (takeDigits r).2)
      let fracPart : List Char × List Char :=
        match intPart.2 with
        | '.' :: r2 =>
          match takeDigits r2 with
          | ([], _) => ([], intPart.2)
          | (ds, r3) => (ds, r3)
        | _ => ([], intPart.2)
      let expPart : Int × List Char :=
        match fracPart.2 with
        | e :: r2 =>
          if e = 'e' ∨ e = 'E' then
            match r2 with
            | '+' :: r3 =>
              match takeDigits r3 with
              | ([], _) => (0, fracPart.2)
              | (ds, r4) => ((digitsToNat 0 ds : Int), r4)
            | '-' :: r3 =>
              match takeDigits r3 with
              | ([], _) => (0, fracPart.2)
              | (ds, r4) => (-(digitsToNat 0 ds : Int), r4)
            | _ =>
              match takeDigits r2 with
              | ([], _) => (0, fracPart.2)
              | (ds, r3) => ((digitsToNat 0 ds : Int), r3)
          else (0, fracPart.2)
        | [] => (0, fracPart.2)
      let mant : Nat := digitsToNat 0 (intPart.1 ++ fracPart.1)
      let sMant : Int := if sign.1 then -(mant : Int) else (mant : Int)
      let k : Nat := fracPart.1.length
      let value : ℚ :=
        if (k : Int) ≤ expPart.1 then mkRat (sMant * 10 ^ (expPart.1 - k).toNat) 1
        else mkRat sMant (10 ^ ((k : Int) - expPart.1).toNat)
      some (Json.num value, expPart.2)
    else none

/-- Python `dict(pairs)` on an association list: a later pair with the
same key overwrites the value but keeps the key's first-insertion
position. -/
def dictInsert (m : List (String × Json)) (k : String) (v : Json) :
    List (String × Json) :=
  match m with
  | [] => [(k, v)]
  | p :: rest => if p.1 = k then (p.1, v) :: rest else p :: dictInsert rest k v

def dictOfPairs (ps : List (String × Json)) : List (String × Json) :=
  ps.foldl (fun m p => dictInsert m p.1 p.2) []

mutual

/-- CPython `scan_once`: one JSON value at the current position (no
leading whitespace — callers skip it first), dispatching on the first
character exactly as the scanner does: string, object, array,
`null`/`true`/`false`, a number, or the non-standard `NaN`, `Infinity`
and `-Infinity` constants.  The fuel only bounds recursion depth; each
two levels of descent consume at least one input character, so the
`4 * length + 4` that `jsonLoads` passes never runs out. -/
def parseJsonValue : Nat → List Char → Option (Json × List Char)
  | 0, _ => none
  | fuel + 1, cs =>
    match cs with
    | [] => none
    | c :: r =>
      if c = '"' then
        match parseJsonString (r.length + 1) r with
        | some (s, rest) => some (Json.str (String.mk s), rest)
        | none => none
      else if c = braceOpen then
        match parseJsonMembers fuel true r with
        | some (ms, rest) => some (Json.obj (dictOfPairs ms), rest)
        | none => none
      else if c = '[' then
        match parseJsonItems fuel true r with
        | some (xs, rest) => some (Json.arr xs, rest)
        | none => none
      else
        match cs with
        | 'n' :: 'u' :: 'l' :: 'l' :: rest => some (Json.null, rest)
        | 't' :: 'r' :: 'u' :: 'e' :: rest => some (Json.bool true, rest)
        | 'f' :: 'a' :: 'l' :: 's' :: 'e' :: rest => some (Json.bool false, rest)
        | 'N' :: 'a' :: 'N' :: rest => some (Json.nan, rest)
        | 'I' :: 'n' :: 'f' :: 'i' :: 'n' :: 'i' :: 't' :: 'y' :: rest =>
          some (Json.inf true, rest)
        | _ =>
          match parseJsonNumber cs with
          | some res => some res
          | none =>
            match cs with
            | '-' :: 'I' :: 'n' :: 'f' :: 'i' :: 'n' :: 'i' :: 't' :: 'y' :: rest =>
              some (Json.inf false, rest)
            | _ => none

/-- CPython `JSONObject` after its opening brace: optional whitespace,
then either the closing brace (empty object — allowed only before the
first member, so a trailing comma is an error) or `"key": value`
members separated by commas, with whitespace permitted around the
colon and comma, ending at the closing brace.  Returns the member
pairs in source order (the caller applies `dictOfPairs`, Python's
`dict(pairs)`) and the input after the closing brace. -/
def parseJsonMembers :
    Nat → Bool → List Char → Option (List (String × Json) × List Char)
  | 0, _, _ => none
  | fuel + 1, first, cs =>
    match skipWS cs with
    | [] => none
    | c :: r =>
      if first ∧ c = braceClose then some ([], r)
      else if c = '"' then
        match parseJsonString (r.length + 1) r with
        | some (k, r1) =>
          match skipWS r1 with
          | ':' :: r2 =>
            match parseJsonValue fuel (skipWS r2) with
            | some (v, r3) =>
              match skipWS r3 with
              | c2 :: r4 =>
                if c2 = braceClose then some ([(String.mk k, v)], r4)
                else if c2 = ',' then
                  match parseJsonMembers fuel false r4 with
                  | some (ms, rest) => some ((String.mk k, v) :: ms, rest)
                  | none => none
                else none
              | [] => none
            | none => none
          | _ => none
        | none => none
      else none

/-- CPython `JSONArray` after its opening bracket: optional whitespace,
then either the closing bracket (empty array — again only before the
first item, so a trailing comma is an error) or values separated by
commas, ending at the closing bracket. -/
def parseJsonItems : Nat → Bool → List Char → Option (List Json × List Char)
  | 0, _, _ => none
  | fuel + 1, first, cs =>
    match skipWS cs with
    | [] => none
    | c :: r =>
      if first ∧ c = ']' then some ([], r)
      else
        match parseJsonValue fuel (c :: r) with
        | some (v, r1) =>
          match skipWS r1 with
          | c2 :: r2 =>
            if c2 = ']' then some ([v], r2)
            else if c2 = ',' then
              match parseJsonItems fuel false r2 with
              | some (xs, rest) => some (v :: xs, rest)
              | none => none
            else none
          | [] => none
        | none => none

end

/-- CPython `json.loads`: skip whitespace, decode exactly one value,
skip whitespace, and require the input to be exhausted (the "Extra
data" error otherwise); `none` is a raised `JSONDecodeError`.  The
interpreter's recursion limit — absurdly deeply nested input raises
`RecursionError`, which the adapter's outer handler also turns into an
empty mapping — is a resource bound not modelled here. -/
def jsonLoads (cs : List Char) : Option Json :=
  match parseJsonValue (4 * cs.length + 4) (skipWS cs) with
  | some (v, rest) => if skipWS rest = [] then some v else none
  | none => none

/-- Fidelity spot checks of the decoder model against the interpreter
(each was run under `json.loads` as well): duplicate keys keep the
first position with the last value; numbers, escapes and surrogate
pairs decode; malformed inputs and trailing data are errors. -/
example : jsonLoads "\x7b\"A\": 3\x7d".data
    = some (Json.obj [("A", Json.num (mkRat 3 1))]) := rfl

example : jsonLoads "\x7b\"a\":1,\"b\":2,\"a\":3\x7d".data
    = some (Json.obj [("a", Json.num (mkRat 3 1)),
        ("b", Json.num (mkRat 2 1))]) := rfl

example : jsonLoads "[1, 2.5e1, -0.5]".data
    = some (Json.arr [Json.num (mkRat 1 1), Json.num (mkRat 25 1),
        Json.num (mkRat (-1) 2)]) := rfl

example : jsonLoads "\"a\\u00e9x\"".data = some (Json.str "aéx") := rfl

example : jsonLoads "\"x\\n\\t\\\"\\\\\"".data
    = some (Json.str (String.mk ['x', Char.ofNat 10, Char.ofNat 9,
        '"', '\\'])) := rfl

example : jsonLoads "\"\\ud83d\\ude00\"".data
    = some (Json.str (String.mk [Char.ofNat 128512])) := rfl

example : jsonLoads " \x7b\"k\" : [true, null, \x7b\"n\": \x7b\x7d\x7d]\x7d ".data
    = some (Json.obj [("k", Json.arr [Json.bool true, Json.null,
        Json.obj [("n", Json.obj [])]])]) := rfl

example : jsonLoads "-Infinity".data = some (Json.inf false) := rfl

example : jsonLoads "\x7b\"a\":01\x7d".data = none := rfl

example : jsonLoads "\x7b\"a\":1,\x7d".data = none := rfl

example : jsonLoads "[1,]".data = none := rfl

example : jsonLoads "3 4".data = none := rfl

example : jsonLoads "\"unterminated".data = none := rfl

example : jsonLoads "\x7b\"a\": nullx\x7d".data = none := rfl

/-- `get_ai_column_mapping` with the transport outcome made explicit:
`none` is a failed `ollama.chat` call (the outer `except` logs and
returns an empty dict), `some resp` a returned response text.  The
code slices the response from the first brace-open to one past the
last brace-close, runs `json.loads` on the slice, and returns the
empty dict on every failure path rather than raising.  It performs no
type check on the decoded value, but a nonempty slice always starts at
a brace-open, so a successful decode is always an object. -/
def get_ai_column_mapping (transport : Option String) : Json :=
  match transport with
  | none => Json.obj []
  | some resp =>
    match extractJsonStr resp with
    | none => Json.obj []
    | some cs =>
      match jsonLoads cs with
      | some v => v
      | none => Json.obj []

/-- Modelled from the spec: the claim describes the parse as locating
"the first balanced structured-object span within the free-form
response" and decoding that span.  This scans from a brace-open keeping
a depth counter and stops at the matching brace-close — the words of the
spec, to be compared with what the code actually slices. -/
def balancedSpan : List Char → Nat → Option (List Char)
  | [], _ => none
  | c :: cs, d =>
    if c = braceOpen then
      match balancedSpan cs (d + 1) with
      | some s => some (c :: s)
      | none => none
    else if c = braceClose then
      if d = 1 then some [c]
      else if d = 0 then none
      else
        match balancedSpan cs (d - 1) with
        | some s => some (c :: s)
        | none => none
    else
      match balancedSpan cs d with
      | some s => some (c :: s)
      | none => none

/-- Modelled from the spec: decode the first balanced object span of the
response; zero suggestions when no valid span decodes. -/
def specFirstBalancedDecode (resp : String) : Json :=
  match resp.data.findIdx? (· = braceOpen) with
  | none => Json.obj []
  | some i =>
    match balancedSpan (resp.data.drop i) 0 with
    | none => Json.obj []
    | some span =>
      match jsonLoads span with
      | some v => v
      | none => Json.obj []

/-- C6, counterexample: for the response `{"A": "b"} {x}` (braces written
as chr(123)/chr(125)) the first balanced span is `{"A": "b"}`, which
decodes to a one-entry mapping; but the code slices from the first
brace-open to the *last* brace-close, obtaining the whole text, whose
decode fails ("Extra data"), so `get_ai_column_mapping` returns the
empty mapping — the code does not implement the first-balanced-span
parse the claim describes. -/
theorem ai_parse_strategy_counterexample :
    get_ai_column_mapping (some "\x7b\"A\": \"b\"\x7d \x7bx\x7d") = Json.obj [] ∧
    specFirstBalancedDecode "\x7b\"A\": \"b\"\x7d \x7bx\x7d"
      = Json.obj [("A", Json.str "b")] ∧
    Json.obj ([] : List (String × Json)) ≠ Json.obj [("A", Json.str "b")] := by
  refine ⟨rfl, rfl, ?_⟩
  intro h
  injection h with h2
  exact List.noConfusion h2

/-- C6, amended: the adapter decodes the slice of the response running
from the first brace-open through the last brace-close (not the first
balanced span) with `json.loads`; on a transport failure, a response
with no brace-open, or a slice that does not decode, it returns the
empty mapping without raising, and when the slice decodes it returns
the decoded value, so the pipeline always continues. -/
theorem ai_mapping_defensive_spec (transport : Option String) :
    (transport = none → get_ai_column_mapping transport = Json.obj []) ∧
    (∀ resp, transport = some resp →
      ((extractJsonStr resp).bind jsonLoads = none →
        get_ai_column_mapping transport = Json.obj []) ∧
      (∀ v, (extractJsonStr resp).bind jsonLoads = some v →
        get_ai_column_mapping transport = v)) := by
  constructor
  · intro h
    rw [h]
    rfl
  · intro resp h
    subst h
    constructor
    · intro hnone
      cases he : extractJsonStr resp with
      | none => simp [get_ai_column_mapping, he]
      | some cs =>
        rw [he, Option.some_bind] at hnone
        simp [get_ai_column_mapping, he, hnone]
    · intro v hv
      cases he : extractJsonStr resp with
      | none =>
        rw [he, Option.none_bind] at hv
        cases hv
      | some cs =>
        rw [he, Option.some_bind] at hv
        simp [get_ai_column_mapping, he, hv]

theorem ai_mapping_defensive_spec_witness :
    get_ai_column_mapping
        (some "\x7b\"Name\": \"name\", \"Amount\": 3, \"Tax\": null\x7d")
      = Json.obj [("Name", Json.str "name"), ("Amount", Json.num (mkRat 3 1)),
          ("Tax", Json.null)] ∧
    get_ai_column_mapping (some "no object here") = Json.obj [] :=
  ⟨((ai_mapping_defensive_spec
        (some "\x7b\"Name\": \"name\", \"Amount\": 3, \"Tax\": null\x7d")).2 _
      rfl).2 _ rfl,
   ((ai_mapping_defensive_spec (some "no object here")).2 _ rfl).1 rfl⟩

/-! ### The data reshaper (app.py lines 143-167) -/

/-- A cell value; `NA` is pandas' missing marker (NaN). -/
inductive Val where
  | NA : Val
  | str : String → Val
  | num : ℚ → Val
deriving DecidableEq

/-- A pandas DataFrame: ordered named columns and an explicit row count
(the length of the index). -/
structure DFrame where
  cols : List (String × List Val)
  nrows : Nat
deriving DecidableEq

/-- Well-formedness (schema conformance): every column holds one value
per row. -/
def DFrame.WF (df : DFrame) : Prop := ∀ p ∈ df.cols, p.2.length = df.nrows

def containsCol (df : DFrame) (name : String) : Bool :=
  df.cols.any fun p => p.1 = name

/-- `df[name].values` for the first column named `name` (the spec fixes
first-match-wins under duplicate names); `[]` when absent. -/
def getCol (df : DFrame) (name : String) : List Val :=
  match df.cols.find? (fun p => p.1 = name) with
  | some p => p.2
  | none => []

/-- Column assignment on a column list: pandas replaces every column
carrying the label in place and appends a new column at the end
otherwise. -/
def updateCols (cols : List (String × List Val)) (name : String)
    (vals : List Val) : List (String × List Val) :=
  if cols.any fun p => p.1 = name then
    cols.map fun p => if p.1 = name then (p.1, vals) else p
  else cols ++ [(name, vals)]

/-- pandas `df[name] = vals` (`DataFrame.__setitem__`): when the frame
has no rows and the assigned values are nonempty, `_ensure_valid_index`
first reindexes the frame to the length of the values, filling the
existing columns with NaN; otherwise the value length must equal the row
count or pandas raises `ValueError` (modelled as `none`). -/
def setCol (df : DFrame) (name : String) (vals : List Val) : Option DFrame :=
  if df.nrows = 0 ∧ vals.length ≠ 0 then
    some ⟨updateCols (df.cols.map fun p => (p.1, List.replicate vals.length Val.NA))
      name vals, vals.length⟩
  else if vals.length = df.nrows then
    some ⟨updateCols df.cols name vals, df.nrows⟩
  else none

/-- The guard of the assignment loop
(`if source_col and source_col in self.source_df.columns`): the entry's
chosen column when it is truthy (non-null and nonempty) and present in
the source frame, else nothing. -/
def validTarget (src : DFrame) (v : Option String) : Option String :=
  match v with
  | some sc => if sc ≠ "" ∧ containsCol src sc then some sc else none
  | none => none

/-- One iteration of the assignment loop over `column_mapping.items()`.
`trunc` distinguishes the first loop, which slices
`.values[:len(self.source_df)]`, from the rebuild loop, which assigns
`.values` unsliced. -/
def assignStep (src : DFrame) (trunc : Bool) (acc : Option DFrame)
    (p : String × Option String) : Option DFrame :=
  match acc with
  | none => none
  | some df =>
    match validTarget src p.2 with
    | some sc =>
      setCol df p.1 (if trunc then (getCol src sc).take src.nrows else getCol src sc)
    | none => some df

/-- `create_mapped_dataframe`: start from
`pd.DataFrame(columns=self.template_columns)` (zero rows), run the
assignment loop, and if the result still has zero rows while the source
has rows, rebuild from `pd.DataFrame(index=range(len(self.source_df)),
columns=self.template_columns)` (all NaN) and run the loop again. -/
def create_mapped_dataframe (templateCols : List String) (src : DFrame)
    (mapping : List (String × Option String)) : Option DFrame :=
  let init : DFrame := ⟨templateCols.map fun c => (c, []), 0⟩
  match mapping.foldl (assignStep src true) (some init) with
  | none => none
  | some df1 =>
    if df1.nrows = 0 ∧ 0 < src.nrows then
      let base : DFrame :=
        ⟨templateCols.map fun c => (c, List.replicate src.nrows Val.NA),
          src.nrows⟩
      mapping.foldl (assignStep src false) (some base)
    else some df1

/-- The decision the reshaper effectively applies to a template column:
the first mapping entry for the column, passed through the loop guard. -/
def findValid (src : DFrame) (mapping : List (String × Option String))
    (name : String) : Option String :=
  match mapping.find? (fun q => q.1 = name) with
  | some q => validTarget src q.2
  | none => none

example : create_mapped_dataframe ["A", "B"] ⟨[("x", [Val.str "v"])], 1⟩
    [("A", some "x")]
    = some ⟨[("A", [Val.str "v"]), ("B", [Val.NA])], 1⟩ := by decide

example : create_mapped_dataframe ["A"] ⟨[("x", [])], 0⟩ [("A", some "x")]
    = some ⟨[("A", [])], 0⟩ := by decide

example : create_mapped_dataframe ["A"] ⟨[("x", [Val.num 1])], 1⟩ []
    = some ⟨[("A", [Val.NA])], 1⟩ := by decide

/-! ### Lemmas about the reshaper primitives -/

theorem validTarget_some {src : DFrame} {v : Option String} {sc : String}
    (h : validTarget src v = some sc) :
    v = some sc ∧ sc ≠ "" ∧ containsCol src sc = true := by
  cases v with
  | none => cases h
  | some t =>
    simp only [validTarget] at h
    split at h
    · rename_i hc
      have hts : t = sc := Option.some.injEq _ _ ▸ h
      subst hts
      exact ⟨rfl, hc.1, hc.2⟩
    · cases h

theorem getCol_length {src : DFrame} (hsrc : src.WF) {sc : String}
    (h : containsCol src sc = true) : (getCol src sc).length = src.nrows := by
  unfold containsCol at h
  rw [List.any_eq_true] at h
  obtain ⟨q, hq, hqname⟩ := h
  unfold getCol
  cases hf : src.cols.find? (fun p => p.1 = sc) with
  | none =>
    rw [List.find?_eq_none] at hf
    exact absurd hqname (hf q hq)
  | some r =>
    exact hsrc r (List.mem_of_find?_eq_some hf)

theorem any_of_name_mem {cols : List (String × List Val)} {name : String}
    (h : name ∈ cols.map Prod.fst) :
    (cols.any fun p => p.1 = name) = true := by
  rw [List.mem_map] at h
  obtain ⟨q, hq, rfl⟩ := h
  rw [List.any_eq_true]
  exact ⟨q, hq, by simp⟩

theorem mem_updateCols_any {cols : List (String × List Val)} {name : String}
    {vals : List Val} (h : (cols.any fun p => p.1 = name) = true) :
    ∀ p ∈ updateCols cols name vals,
      ∃ q ∈ cols, p = if q.1 = name then (q.1, vals) else q := by
  intro p hp
  unfold updateCols at hp
  rw [if_pos h, List.mem_map] at hp
  obtain ⟨q, hq, rfl⟩ := hp
  exact ⟨q, hq, rfl⟩

theorem updateCols_names {cols : List (String × List Val)} {name : String}
    {vals : List Val} (h : (cols.any fun p => p.1 = name) = true) :
    (updateCols cols name vals).map Prod.fst = cols.map Prod.fst := by
  unfold updateCols
  rw [if_pos h, List.map_map]
  apply List.map_congr_left
  intro q _
  by_cases hq : q.1 = name
  · simp [hq]
  · simp [hq]

theorem setCol_spec {df : DFrame} {name : String} {vals : List Val} {n : Nat}
    (hnr : df.nrows = 0 ∨ df.nrows = n) (hvlen : vals.length = n)
    (hany : (df.cols.any fun p => p.1 = name) = true) :
    ∃ df', setCol df name vals = some df' ∧
      df'.nrows = n ∧
      df'.cols.map Prod.fst = df.cols.map Prod.fst ∧
      ∀ p ∈ df'.cols,
        (p.1 = name → p.2 = vals) ∧
        (p.1 ≠ name →
          (df.nrows = 0 ∧ n ≠ 0 → p.2 = List.replicate n Val.NA) ∧
          (¬ (df.nrows = 0 ∧ n ≠ 0) → p ∈ df.cols)) := by
  by_cases hcase : df.nrows = 0 ∧ vals.length ≠ 0
  · have hcase' : df.nrows = 0 ∧ n ≠ 0 := by
      refine ⟨hcase.1, ?_⟩
      rw [← hvlen]
      exact hcase.2
    have hany2 : ((df.cols.map fun p => (p.1, List.replicate vals.length Val.NA)).any
        fun p => p.1 = name) = true := by
      rw [List.any_map]
      exact hany
    refine ⟨⟨updateCols (df.cols.map fun p => (p.1, List.replicate vals.length Val.NA))
        name vals, vals.length⟩, ?_, hvlen, ?_, ?_⟩
    · unfold setCol
      rw [if_pos hcase]
    · show (updateCols _ name vals).map Prod.fst = _
      rw [updateCols_names hany2, List.map_map]
      have hcomp : (Prod.fst ∘ fun p : String × List Val =>
          (p.1, List.replicate vals.length Val.NA)) = Prod.fst :=
        funext fun p => rfl
      rw [hcomp]
    · intro p hp
      obtain ⟨q, hq, hpq⟩ := mem_updateCols_any hany2 p hp
      obtain ⟨r, hr, rfl⟩ := List.mem_map.mp hq
      constructor
      · intro hpname
        by_cases hrn : r.1 = name
        · rw [hpq]
          simp [hrn]
        · rw [hpq] at hpname
          simp [hrn] at hpname
      · intro hpname
        refine ⟨?_, fun hc => absurd hcase' hc⟩
        intro _
        by_cases hrn : r.1 = name
        · rw [hpq] at hpname
          simp [hrn] at hpname
        · rw [hpq]
          simp [hrn, hvlen]
  · have hvdf : vals.length = df.nrows := by
      rcases hnr with h0 | hs
      · rw [h0]
        rcases Nat.eq_zero_or_pos vals.length with hv0 | hvpos
        · exact hv0
        · exact absurd ⟨h0, Nat.pos_iff_ne_zero.mp hvpos⟩ hcase
      · rw [hs, hvlen]
    refine ⟨⟨updateCols df.cols name vals, df.nrows⟩, ?_, ?_, ?_, ?_⟩
    · unfold setCol
      rw [if_neg hcase, if_pos hvdf]
    · show df.nrows = n
      omega
    · exact updateCols_names hany
    · intro p hp
      obtain ⟨q, hq, hpq⟩ := mem_updateCols_any hany p hp
      have hncase : ¬ (df.nrows = 0 ∧ n ≠ 0) := by
        intro hc
        exact hcase ⟨hc.1, by rw [hvlen]; exact hc.2⟩
      constructor
      · intro hpname
        by_cases hqn : q.1 = name
        · rw [hpq]
          simp [hqn]
        · rw [hpq] at hpname
          simp [hqn] at hpname
      · intro hpname
        refine ⟨fun hc => absurd hc hncase, fun _ => ?_⟩
        by_cases hqn : q.1 = name
        · rw [hpq] at hpname
          simp [hqn] at hpname
        · rw [hpq]
          simp [hqn]
          exact hq

/-- The per-column contents the assignment loop maintains: a column
already assigned through `g` holds the sliced source values, any other
column holds one missing marker per current row. -/
def colSpec (src : DFrame) (g : String → Option String) (n : Nat)
    (name : String) : List Val :=
  match g name with
  | some sc => (getCol src sc).take src.nrows
  | none => List.replicate n Val.NA

/-- The assignment function after the loop has additionally processed
the entries of `mapping` on top of earlier decisions `g`. -/
def mergeAssign (src : DFrame) (mapping : List (String × Option String))
    (g : String → Option String) (name : String) : Option String :=
  match mapping.find? (fun q => q.1 = name) with
  | some q => validTarget src q.2
  | none => g name

theorem find?_of_mem_nodup :
    ∀ {mapping : List (String × Option String)},
      (mapping.map Prod.fst).Nodup →
      ∀ {tc : String} {v : Option String}, (tc, v) ∈ mapping →
        mapping.find? (fun q => q.1 = tc) = some (tc, v) := by
  intro mapping
  induction mapping with
  | nil =>
    intro _ tc v hp
    cases hp
  | cons a rest ih =>
    intro hnodup tc v hp
    have hnodup2 := hnodup
    simp only [List.map_cons, List.nodup_cons] at hnodup2
    rcases List.mem_cons.mp hp with rfl | hp'
    · exact List.find?_cons_of_pos _ (by simp)
    · have hne : ¬ (a.1 = tc) := by
        intro h
        exact hnodup2.1 (h ▸ List.mem_map_of_mem Prod.fst hp')
      rw [List.find?_cons_of_neg _ (by simp [hne])]
      exact ih hnodup2.2 hp'

theorem mergeAssign_cons_invalid {src : DFrame} {tc : String}
    {v : Option String} {rest : List (String × Option String)}
    {g : String → Option String} (hg : g tc = none)
    (hnotin : tc ∉ rest.map Prod.fst) (hval : validTarget src v = none)
    (name : String) :
    mergeAssign src ((tc, v) :: rest) g name = mergeAssign src rest g name := by
  unfold mergeAssign
  by_cases hname : tc = name
  · subst hname
    rw [List.find?_cons_of_pos _ (by simp)]
    have hrest : rest.find? (fun q => q.1 = tc) = none := by
      rw [List.find?_eq_none]
      intro q hq
      simp only [decide_eq_true_eq]
      intro heq
      exact hnotin (heq ▸ List.mem_map_of_mem Prod.fst hq)
    rw [hrest]
    show validTarget src v = g tc
    rw [hval, hg]
  · rw [List.find?_cons_of_neg _ (by simp [hname])]

theorem mergeAssign_cons_valid {src : DFrame} {tc : String}
    {v : Option String} {sc : String} {rest : List (String × Option String)}
    {g : String → Option String} (hnotin : tc ∉ rest.map Prod.fst)
    (hval : validTarget src v = some sc) (name : String) :
    mergeAssign src ((tc, v) :: rest) g name =
      mergeAssign src rest (fun n => if n = tc then some sc else g n) name := by
  unfold mergeAssign
  by_cases hname : tc = name
  · subst hname
    rw [List.find?_cons_of_pos _ (by simp)]
    have hrest : rest.find? (fun q => q.1 = tc) = none := by
      rw [List.find?_eq_none]
      intro q hq
      simp only [decide_eq_true_eq]
      intro heq
      exact hnotin (heq ▸ List.mem_map_of_mem Prod.fst hq)
    rw [hrest]
    show validTarget src v = if tc = tc then some sc else g tc
    rw [hval, if_pos rfl]
  · rw [List.find?_cons_of_neg _ (by simp [hname])]
    cases hf : rest.find? (fun q => q.1 = name) with
    | some q => rfl
    | none =>
      show g name = if name = tc then some sc else g name
      rw [if_neg fun h => hname h.symm]

theorem foldl_assign_noop (src : DFrame) (tr : Bool) :
    ∀ (mapping : List (String × Option String)) (df : DFrame),
      (∀ p ∈ mapping, validTarget src p.2 = none) →
      mapping.foldl (assignStep src tr) (some df) = some df := by
  intro mapping
  induction mapping with
  | nil =>
    intro df _
    rfl
  | cons a rest ih =>
    intro df hall
    rw [List.foldl_cons]
    have hstep : assignStep src tr (some df) a = some df := by
      simp [assignStep, hall a (List.mem_cons_self _ _)]
    rw [hstep]
    exact ih df fun p hp => hall p (List.mem_cons_of_mem _ hp)

/-- Success of `setCol` needs no knowledge of the column names, only the
length discipline; used for the totality claim. -/
theorem setCol_total {df : DFrame} {name : String} {vals : List Val} {n : Nat}
    (hnr : df.nrows = 0 ∨ df.nrows = n) (hvlen : vals.length = n) :
    ∃ df', setCol df name vals = some df' ∧ df'.nrows = n := by
  by_cases hcase : df.nrows = 0 ∧ vals.length ≠ 0
  · refine ⟨⟨updateCols (df.cols.map fun p => (p.1, List.replicate vals.length Val.NA))
        name vals, vals.length⟩, ?_, hvlen⟩
    unfold setCol
    rw [if_pos hcase]
  · have hvdf : vals.length = df.nrows := by
      rcases hnr with h0 | hs
      · rw [h0]
        rcases Nat.eq_zero_or_pos vals.length with hv0 | hvpos
        · exact hv0
        · exact absurd ⟨h0, Nat.pos_iff_ne_zero.mp hvpos⟩ hcase
      · rw [hs, hvlen]
    refine ⟨⟨updateCols df.cols name vals, df.nrows⟩, ?_, ?_⟩
    · unfold setCol
      rw [if_neg hcase, if_pos hvdf]
    · show df.nrows = n
      omega

theorem foldl_assign_total (src : DFrame) (hsrc : src.WF) (tr : Bool) :
    ∀ (mapping : List (String × Option String)) (df : DFrame),
      (df.nrows = 0 ∨ df.nrows = src.nrows) →
      ∃ out, mapping.foldl (assignStep src tr) (some df) = some out ∧
        (out.nrows = 0 ∨ out.nrows = src.nrows) := by
  intro mapping
  induction mapping with
  | nil =>
    intro df hnr
    exact ⟨df, rfl, hnr⟩
  | cons a rest ih =>
    intro df hnr
    rw [List.foldl_cons]
    cases hval : validTarget src a.2 with
    | none =>
      have hstep : assignStep src tr (some df) a = some df := by
        simp [assignStep, hval]
      rw [hstep]
      exact ih df hnr
    | some sc =>
      have hcont : containsCol src sc = true := (validTarget_some hval).2.2
      have hglen : (getCol src sc).length = src.nrows := getCol_length hsrc hcont
      have hvlen : (if tr then (getCol src sc).take src.nrows
          else getCol src sc).length = src.nrows := by
        cases tr with
        | true => simp [List.length_take, hglen]
        | false => simpa using hglen
      obtain ⟨df', hset, hdn⟩ := setCol_total (n := src.nrows) hnr hvlen
      have hstep : assignStep src tr (some df) a = some df' := by
        simp only [assignStep, hval]
        exact hset
      rw [hstep]
      exact ih df' (Or.inr hdn)

/-- Invariant of the first assignment loop: running the remaining
`mapping` entries from a frame whose columns follow `colSpec` for the
decisions `g` taken so far yields a frame following `colSpec` for the
merged decisions, with the row count staying 0 exactly until a valid
assignment lands (and `src.nrows` afterwards). -/
theorem foldl_assign_spec (src : DFrame) (hsrc : src.WF)
    (templateCols : List String) :
    ∀ (mapping : List (String × Option String)) (df : DFrame)
      (g : String → Option String),
      (mapping.map Prod.fst).Nodup →
      (∀ p ∈ mapping, p.1 ∈ templateCols) →
      (∀ p ∈ mapping, g p.1 = none) →
      df.cols.map Prod.fst = templateCols →
      (df.nrows = 0 ∨ df.nrows = src.nrows) →
      (df.nrows = 0 → src.nrows = 0 ∨ ∀ name, g name = none) →
      (∀ p ∈ df.cols, p.2 = colSpec src g df.nrows p.1) →
      ∃ out, mapping.foldl (assignStep src true) (some df) = some out ∧
        out.cols.map Prod.fst = templateCols ∧
        (out.nrows = 0 ∨ out.nrows = src.nrows) ∧
        (out.nrows = 0 → src.nrows = 0 ∨
          ∀ name, mergeAssign src mapping g name = none) ∧
        (∀ p ∈ out.cols,
          p.2 = colSpec src (mergeAssign src mapping g) out.nrows p.1) := by
  intro mapping
  induction mapping with
  | nil =>
    intro df g _ _ _ hnames hnr hzero hchar
    exact ⟨df, rfl, hnames, hnr, fun h0 => hzero h0, fun p hp => hchar p hp⟩
  | cons hd rest ih =>
    intro df g hnodup hkeys hgnone hnames hnr hzero hchar
    obtain ⟨tc, v⟩ := hd
    have hnodup2 := hnodup
    simp only [List.map_cons, List.nodup_cons] at hnodup2
    have hnotin : tc ∉ rest.map Prod.fst := hnodup2.1
    have hnodup' : (rest.map Prod.fst).Nodup := hnodup2.2
    have hkeys' : ∀ p ∈ rest, p.1 ∈ templateCols :=
      fun p hp => hkeys p (List.mem_cons_of_mem _ hp)
    have hgtc : g tc = none := hgnone (tc, v) (List.mem_cons_self _ _)
    rw [List.foldl_cons]
    cases hval : validTarget src v with
    | none =>
      have hstep : assignStep src true (some df) (tc, v) = some df := by
        simp [assignStep, hval]
      rw [hstep]
      obtain ⟨out, hfold, hn, hr, hz, hc⟩ :=
        ih df g hnodup' hkeys'
          (fun p hp => hgnone p (List.mem_cons_of_mem _ hp)) hnames hnr hzero hchar
      refine ⟨out, hfold, hn, hr, ?_, ?_⟩
      · intro h0
        rcases hz h0 with h | h
        · exact Or.inl h
        · refine Or.inr fun name => ?_
          rw [mergeAssign_cons_invalid hgtc hnotin hval name]
          exact h name
      · intro p hp
        rw [hc p hp]
        unfold colSpec
        rw [mergeAssign_cons_invalid hgtc hnotin hval p.1]
    | some sc =>
      obtain ⟨hv, hscne, hsccont⟩ := validTarget_some hval
      have hglen : (getCol src sc).length = src.nrows := getCol_length hsrc hsccont
      have hvlen : ((getCol src sc).take src.nrows).length = src.nrows := by
        rw [List.length_take, hglen, min_self]
      have htcT : tc ∈ templateCols := hkeys (tc, v) (List.mem_cons_self _ _)
      have hany : (df.cols.any fun p => p.1 = tc) = true :=
        any_of_name_mem (by rw [hnames]; exact htcT)
      obtain ⟨df', hset, hdn, hdnames, hdchar⟩ :=
        setCol_spec (n := src.nrows) hnr hvlen hany
      have hstep : assignStep src true (some df) (tc, v) = some df' := by
        simp only [assignStep, hval, if_true]
        exact hset
      rw [hstep]
      have hg'none : ∀ p ∈ rest,
          (fun n => if n = tc then some sc else g n) p.1 = none := by
        intro p hp
        have hne : p.1 ≠ tc := fun h => hnotin (h ▸ List.mem_map_of_mem Prod.fst hp)
        simp only [if_neg hne]
        exact hgnone p (List.mem_cons_of_mem _ hp)
      have hnames' : df'.cols.map Prod.fst = templateCols := by
        rw [hdnames, hnames]
      have hzero' : df'.nrows = 0 → src.nrows = 0 ∨
          ∀ name, (fun n => if n = tc then some sc else g n) name = none := by
        intro h0
        left
        rw [← hdn, h0]
      have hchar' : ∀ p ∈ df'.cols,
          p.2 = colSpec src (fun n => if n = tc then some sc else g n)
            df'.nrows p.1 := by
        intro p hp
        have hd := hdchar p hp
        by_cases hpn : p.1 = tc
        · rw [hd.1 hpn]
          simp [colSpec, hpn]
        · have hd2 := hd.2 hpn
          by_cases hcase : df.nrows = 0 ∧ src.nrows ≠ 0
          · rw [hd2.1 hcase]
            simp only [colSpec, if_neg hpn]
            rcases hzero hcase.1 with h | h
            · exact absurd h hcase.2
            · rw [h p.1, hdn]
          · have hpdf := hd2.2 hcase
            rw [hchar p hpdf]
            simp only [colSpec, if_neg hpn]
            cases hg : g p.1 with
            | some sc2 => rfl
            | none =>
              have hdd : df.nrows = df'.nrows := by
                rcases hnr with h0 | hs
                · rw [h0, hdn]
                  rcases Nat.eq_zero_or_pos src.nrows with hz2 | hp2
                  · rw [hz2]
                  · exact absurd ⟨h0, Nat.pos_iff_ne_zero.mp hp2⟩ hcase
                · rw [hs, hdn]
              rw [hdd]
      obtain ⟨out, hfold, hn, hr, hz, hc⟩ :=
        ih df' (fun n => if n = tc then some sc else g n) hnodup' hkeys'
          hg'none hnames' (Or.inr hdn) hzero' hchar'
      refine ⟨out, hfold, hn, hr, ?_, ?_⟩
      · intro h0
        rcases hz h0 with h | h
        · exact Or.inl h
        · refine Or.inr fun name => ?_
          rw [mergeAssign_cons_valid hnotin hval name]
          exact h name
      · intro p hp
        rw [hc p hp]
        unfold colSpec
        rw [mergeAssign_cons_valid hnotin hval p.1]

theorem create_eq_of_foldl {templateCols : List String} {src : DFrame}
    {mapping : List (String × Option String)} {df1 : DFrame}
    (hfold : mapping.foldl (assignStep src true)
      (some ⟨templateCols.map fun c => (c, []), 0⟩) = some df1) :
    create_mapped_dataframe templateCols src mapping =
      if df1.nrows = 0 ∧ 0 < src.nrows then
        mapping.foldl (assignStep src false)
          (some ⟨templateCols.map fun c => (c, List.replicate src.nrows Val.NA),
            src.nrows⟩)
      else some df1 := by
  simp only [create_mapped_dataframe]
  rw [hfold]

theorem findValid_eq_merge (src : DFrame)
    (mapping : List (String × Option String)) (name : String) :
    findValid src mapping name = mergeAssign src mapping (fun _ => none) name := by
  unfold findValid mergeAssign
  cases mapping.find? (fun q => q.1 = name) <;> rfl

/-- Full behaviour of `create_mapped_dataframe` on a well-formed source
and a dict-shaped mapping (unique keys, drawn from the template schema):
it succeeds, the output carries exactly the template schema and the
source row count, and each column holds the mapped source column's
values (row-aligned) or one missing marker per row. -/
theorem create_spec (templateCols : List String) (src : DFrame)
    (mapping : List (String × Option String)) (hsrc : src.WF)
    (hkeys : ∀ p ∈ mapping, p.1 ∈ templateCols)
    (hnodup : (mapping.map Prod.fst).Nodup) :
    ∃ out, create_mapped_dataframe templateCols src mapping = some out ∧
      out.cols.map Prod.fst = templateCols ∧
      out.nrows = src.nrows ∧
      ∀ p ∈ out.cols, p.2 =
        match findValid src mapping p.1 with
        | some sc => getCol src sc
        | none => List.replicate src.nrows Val.NA := by
  have hinames : ((templateCols.map fun c => (c, ([] : List Val))).map Prod.fst)
      = templateCols := by
    rw [List.map_map]
    have hcomp : (Prod.fst ∘ fun c : String => (c, ([] : List Val))) = id :=
      funext fun c => rfl
    rw [hcomp, List.map_id]
  obtain ⟨df1, hfold, hn1, hr1, hz1, hc1⟩ :=
    foldl_assign_spec src hsrc templateCols mapping
      ⟨templateCols.map fun c => (c, []), 0⟩ (fun _ => none)
      hnodup hkeys (fun p _ => rfl) hinames (Or.inl rfl)
      (fun _ => Or.inr fun _ => rfl)
      (by
        intro p hp
        obtain ⟨c, _, rfl⟩ := List.mem_map.mp hp
        rfl)
  rw [create_eq_of_foldl hfold]
  by_cases hfb : df1.nrows = 0 ∧ 0 < src.nrows
  · have hmerge_none : ∀ name, mergeAssign src mapping (fun _ => none) name
        = none := by
      rcases hz1 hfb.1 with h | h
      · omega
      · exact h
    have hallinvalid : ∀ p ∈ mapping, validTarget src p.2 = none := by
      intro p hp
      obtain ⟨a, b⟩ := p
      have hm := hmerge_none a
      unfold mergeAssign at hm
      rw [find?_of_mem_nodup hnodup hp] at hm
      exact hm
    rw [if_pos hfb, foldl_assign_noop src false mapping _ hallinvalid]
    refine ⟨_, rfl, ?_, rfl, ?_⟩
    · show ((templateCols.map fun c =>
          (c, List.replicate src.nrows Val.NA)).map Prod.fst) = templateCols
      rw [List.map_map]
      have hcomp : (Prod.fst ∘ fun c : String =>
          (c, List.replicate src.nrows Val.NA)) = id := funext fun c => rfl
      rw [hcomp, List.map_id]
    · intro p hp
      obtain ⟨c, _, rfl⟩ := List.mem_map.mp hp
      show List.replicate src.nrows Val.NA = _
      rw [findValid_eq_merge, hmerge_none]
  · rw [if_neg hfb]
    have hn1rows : df1.nrows = src.nrows := by
      rcases hr1 with h0 | hs
      · rcases Nat.eq_zero_or_pos src.nrows with hz2 | hp2
        · rw [h0, hz2]
        · exact absurd ⟨h0, hp2⟩ hfb
      · exact hs
    refine ⟨df1, rfl, hn1, hn1rows, ?_⟩
    intro p hp
    rw [hc1 p hp]
    unfold colSpec
    rw [← findValid_eq_merge src mapping p.1]
    cases hfv : findValid src mapping p.1 with
    | some sc =>
      have hcont : containsCol src sc = true := by
        unfold findValid at hfv
        cases hf : mapping.find? (fun q => q.1 = p.1) with
        | none =>
          rw [hf] at hfv
          cases hfv
        | some q =>
          rw [hf] at hfv
          exact (validTarget_some hfv).2.2
      show (getCol src sc).take src.nrows = getCol src sc
      rw [← getCol_length hsrc hcont, List.take_length]
    | none =>
      rw [hn1rows]

/-! ### Claim theorems about the reshaper -/

/-- C2: for every well-formed source table and any column mapping over
the template schema (a Python dict: unique keys, each a template column,
values arbitrary — mapped, null, or referring to absent columns),
reshaping succeeds and the output has exactly the template schema (same
names, same order) and exactly the source table's row count.  In
particular the zero-row source table yields zero rows under the full
template schema, not an error. -/
theorem reshape_schema_and_rowcount (templateCols : List String)
    (src : DFrame) (mapping : List (String × Option String))
    (hsrc : src.WF) (hkeys : ∀ p ∈ mapping, p.1 ∈ templateCols)
    (hnodup : (mapping.map Prod.fst).Nodup) :
    ∃ out, create_mapped_dataframe templateCols src mapping = some out ∧
      out.cols.map Prod.fst = templateCols ∧ out.nrows = src.nrows := by
  obtain ⟨out, h1, h2, h3, _⟩ :=
    create_spec templateCols src mapping hsrc hkeys hnodup
  exact ⟨out, h1, h2, h3⟩

theorem reshape_schema_and_rowcount_witness :
    (∃ out, create_mapped_dataframe ["A", "B"] ⟨[("x", [])], 0⟩
      [("A", some "x")] = some out ∧
      out.cols.map Prod.fst = ["A", "B"] ∧ out.nrows = 0) ∧
    (∃ out, create_mapped_dataframe ["A", "B"] ⟨[("x", [Val.num 1])], 1⟩
      [("B", some "x")] = some out ∧
      out.cols.map Prod.fst = ["A", "B"] ∧ out.nrows = 1) :=
  ⟨reshape_schema_and_rowcount ["A", "B"] ⟨[("x", [])], 0⟩ [("A", some "x")]
      (by unfold DFrame.WF; decide) (by decide) (by decide),
   reshape_schema_and_rowcount ["A", "B"] ⟨[("x", [Val.num 1])], 1⟩
      [("B", some "x")]
      (by unfold DFrame.WF; decide) (by decide) (by decide)⟩

/-- C9: given a schema-conformant source table and a mapping whose mapped
entries all reference columns present in the source schema (the
resolver's guaranteed precondition), reshaping is total: it returns a
frame and never throws, including on the zero-row source table. -/
theorem reshape_never_throws (templateCols : List String) (src : DFrame)
    (mapping : List (String × Option String)) (hsrc : src.WF)
    (hrefs : ∀ p ∈ mapping, ∀ sc, p.2 = some sc → containsCol src sc = true) :
    ∃ out, create_mapped_dataframe templateCols src mapping = some out := by
  obtain ⟨df1, hfold, hr1⟩ :=
    foldl_assign_total src hsrc true mapping
      ⟨templateCols.map fun c => (c, []), 0⟩ (Or.inl rfl)
  rw [create_eq_of_foldl hfold]
  by_cases hfb : df1.nrows = 0 ∧ 0 < src.nrows
  · rw [if_pos hfb]
    obtain ⟨out, hfold2, _⟩ :=
      foldl_assign_total src hsrc false mapping
        ⟨templateCols.map fun c => (c, List.replicate src.nrows Val.NA),
          src.nrows⟩ (Or.inr rfl)
    exact ⟨out, hfold2⟩
  · rw [if_neg hfb]
    exact ⟨df1, rfl⟩

theorem reshape_never_throws_witness :
    ∃ out, create_mapped_dataframe ["A", "B"] ⟨[("x", [])], 0⟩
      [("A", some "x"), ("B", none)] = some out :=
  reshape_never_throws ["A", "B"] ⟨[("x", [])], 0⟩
    [("A", some "x"), ("B", none)]
    (by unfold DFrame.WF; decide) (by decide)

/-- C1, counterexample: a template column mapped (by a manual override
the resolver accepts) to the empty-named column of a source table that
does contain a column named "".  The mapping entry names an existing
source column, yet the reshaper leaves the template column entirely
missing instead of copying the values: Python's `if source_col` treats
the empty string as falsy and skips the entry. -/
theorem reshape_empty_name_counterexample :
    containsCol ⟨[("", [Val.str "v"])], 1⟩ "" = true ∧
    resolve_mapping ["T"] [""] (fun _ => none) (fun _ => some "")
      = [("T", some "")] ∧
    create_mapped_dataframe ["T"] ⟨[("", [Val.str "v"])], 1⟩
      [("T", some "")] = some ⟨[("T", [Val.NA])], 1⟩ ∧
    getCol ⟨[("", [Val.str "v"])], 1⟩ "" = [Val.str "v"] ∧
    [Val.NA] ≠ [Val.str "v"] := by
  refine ⟨by decide, by decide, by decide, by decide, by decide⟩

/-- C1, amended: for every well-formed source table and dict-shaped
mapping over the template schema, the reshaper fills each template
column mapped to a *nonempty* name of an existing source column with
exactly that source column's values, row-aligned by position, and fills
every cell of each template column whose entry the loop guard rejects
(no entry, null, empty name, or absent column) with the missing
marker. -/
theorem reshape_values_spec (templateCols : List String) (src : DFrame)
    (mapping : List (String × Option String)) (hsrc : src.WF)
    (hkeys : ∀ p ∈ mapping, p.1 ∈ templateCols)
    (hnodup : (mapping.map Prod.fst).Nodup) :
    ∃ out, create_mapped_dataframe templateCols src mapping = some out ∧
      (∀ tc sc, (tc, some sc) ∈ mapping → sc ≠ "" →
        containsCol src sc = true →
        ∀ p ∈ out.cols, p.1 = tc → p.2 = getCol src sc) ∧
      (∀ tc, (∀ v, (tc, v) ∈ mapping → validTarget src v = none) →
        ∀ p ∈ out.cols, p.1 = tc →
          p.2 = List.replicate src.nrows Val.NA) := by
  obtain ⟨out, h1, _, _, hchar⟩ :=
    create_spec templateCols src mapping hsrc hkeys hnodup
  refine ⟨out, h1, ?_, ?_⟩
  · intro tc sc hmem hne hcont p hp hptc
    have hfv : findValid src mapping p.1 = some sc := by
      unfold findValid
      rw [hptc, find?_of_mem_nodup hnodup hmem]
      show validTarget src (some sc) = some sc
      simp only [validTarget]
      rw [if_pos ⟨hne, hcont⟩]
    rw [hchar p hp, hfv]
  · intro tc hinv p hp hptc
    have hfv : findValid src mapping p.1 = none := by
      unfold findValid
      cases hf : mapping.find? (fun q => q.1 = p.1) with
      | none => rfl
      | some q =>
        have hq : q ∈ mapping := List.mem_of_find?_eq_some hf
        have hq1 : q.1 = p.1 := by simpa using List.find?_some hf
        have hqtc : (tc, q.2) ∈ mapping := by
          have hqeq : (tc, q.2) = q := Prod.ext (by rw [hq1, hptc]) rfl
          rw [hqeq]
          exact hq
        exact hinv q.2 hqtc
    rw [hchar p hp, hfv]

theorem reshape_values_spec_witness :
    ∃ out, create_mapped_dataframe ["A", "B"]
        ⟨[("x", [Val.str "v"])], 1⟩ [("A", some "x")] = some out ∧
      (∀ tc sc, (tc, some sc) ∈ [("A", some "x")] → sc ≠ "" →
        containsCol ⟨[("x", [Val.str "v"])], 1⟩ sc = true →
        ∀ p ∈ out.cols, p.1 = tc →
          p.2 = getCol ⟨[("x", [Val.str "v"])], 1⟩ sc) ∧
      (∀ tc, (∀ v, (tc, v) ∈ [("A", some "x")] →
          validTarget ⟨[("x", [Val.str "v"])], 1⟩ v = none) →
        ∀ p ∈ out.cols, p.1 = tc → p.2 = List.replicate 1 Val.NA) :=
  reshape_values_spec ["A", "B"] ⟨[("x", [Val.str "v"])], 1⟩
    [("A", some "x")] (by unfold DFrame.WF; decide) (by decide) (by decide)

/-- C10: the reshaper re-validates every mapping entry instead of
trusting the resolver's precondition: an entry whose chosen source
column is null, empty, or absent from the source table is silently
skipped — the template column comes out entirely missing, exactly as if
unmapped — and no error is raised. -/
theorem reshape_skips_invalid_entries (templateCols : List String)
    (src : DFrame) (mapping : List (String × Option String)) (hsrc : src.WF)
    (hkeys : ∀ p ∈ mapping, p.1 ∈ templateCols)
    (hnodup : (mapping.map Prod.fst).Nodup) (tc : String) (v : Option String)
    (hmem : (tc, v) ∈ mapping)
    (hbad : v = none ∨ v = some "" ∨
      ∃ sc, v = some sc ∧ containsCol src sc = false) :
    ∃ out, create_mapped_dataframe templateCols src mapping = some out ∧
      ∀ p ∈ out.cols, p.1 = tc →
        p.2 = List.replicate src.nrows Val.NA := by
  have hval : validTarget src v = none := by
    rcases hbad with rfl | rfl | ⟨sc, rfl, hnc⟩
    · rfl
    · simp [validTarget]
    · simp [validTarget, hnc]
  obtain ⟨out, h1, _, _, hchar⟩ :=
    create_spec templateCols src mapping hsrc hkeys hnodup
  refine ⟨out, h1, ?_⟩
  intro p hp hptc
  have hfv : findValid src mapping p.1 = none := by
    unfold findValid
    rw [hptc, find?_of_mem_nodup hnodup hmem]
    exact hval
  rw [hchar p hp, hfv]

theorem reshape_skips_invalid_entries_witness :
    ∃ out, create_mapped_dataframe ["A"] ⟨[("x", [Val.num 1])], 1⟩
        [("A", some "gone")] = some out ∧
      ∀ p ∈ out.cols, p.1 = "A" → p.2 = List.replicate 1 Val.NA :=
  reshape_skips_invalid_entries ["A"] ⟨[("x", [Val.num 1])], 1⟩
    [("A", some "gone")] (by unfold DFrame.WF; decide) (by decide) (by decide)
    "A" (some "gone") (by decide) (Or.inr (Or.inr ⟨"gone", rfl, by decide⟩))

example : colScore "Name" "name" = 1 := by decide
example : colScore "" "" = 1 := by decide
example : colScore "abc" "xyz" = 0 := by decide
example : colScore "Amount" "amt" = mkRat 6 9 := by decide
example : fuzzy_match_columns ["Name"] ["name"] (mkRat 7 10)
    = [("Name", [("name", 1)])] := by decide
example : fuzzy_match_columns ["Name", "Amount"] ["name", "amt"] (mkRat 7 10)
    = [("Name", [("name", 1)])] := by decide

end Cust2Ecount
